import Mathlib

/-!
Verification of the pySciBench console / plot-manager state machines.

This file shallowly embeds the two state machines of the repository:
the Scintilla-based IPython console widget (`dockable_console.py` and its
near-duplicate `embedded_console.py`) and the two plot-manager window
variants (`source/gui/plot_window.py`, a tab-based viewer, and
`src/gui/plot_window.py`, a list-based manager).  GUI rendering, colors,
fonts and window geometry are out of scope; buffers, cursors, history,
registries and the observable effects (engine calls, emitted signals,
styled text runs) are modelled explicitly.

Python dictionaries are modelled as insertion-ordered association lists,
Python strings as Lean `String` (the claims only exercise ASCII text),
and Python `None` returns as `Option` values.
-/

/-- Insertion-ordered dictionary assignment `d[k] = v`: updates the entry in
place when the key is present, otherwise appends it (Python dict semantics). -/
def dictSet {α : Type} (d : List (Nat × α)) (k : Nat) (v : α) : List (Nat × α) :=
  if (d.lookup k).isSome then
    d.map (fun p => if p.1 = k then (p.1, v) else p)
  else
    d ++ [(k, v)]

namespace ListPlot

/-! ## `src/gui/plot_window.py` — the list-based Plot Manager

State of `PlotWindow`: `figure_windows`, `figures_status`, `figures_refs`,
`active_figure_num`, the `QListWidget` items and the info panel text. -/

/-- A matplotlib figure handle as the manager sees it: its number and how many
axes it currently holds (used by the info panel). -/
structure Fig where
  number : Nat
  axesCount : Nat
deriving DecidableEq, Repr

/-- One `QListWidgetItem` of the manager's list: the figure number stored in
its `UserRole` data, its display text and its foreground color. -/
structure Item where
  num : Nat
  text : String
  color : String
deriving DecidableEq, Repr

/-- State of the matplotlib `pyplot` collaborator: the registered figure
numbers with their axes counts, and the current (active) figure, if any. -/
structure PltState where
  figs : List (Nat × Bool)
  cur : Option Nat
deriving DecidableEq, Repr

/-- `plt.figure(n)`: make figure `n` current, creating it if absent. -/
def pltFigureSet (p : PltState) (n : Nat) : PltState :=
  if (p.figs.lookup n).isSome then { p with cur := some n }
  else { figs := p.figs ++ [(n, false)], cur := some n }

/-- `plt.figure()`: create a fresh blank figure numbered one above the
maximum existing number (1 when none exist) and make it current. -/
def pltFigureNew (p : PltState) : PltState :=
  let n := (p.figs.map Prod.fst).foldl max 0 + 1
  { figs := p.figs ++ [(n, false)], cur := some n }

/-- State of the list-based `PlotWindow`. -/
structure PW where
  figures_refs : List (Nat × Fig)
  figures_status : List (Nat × Bool)
  items : List Item
  active_figure_num : Option Nat
  info_text : String
  figure_windows : List Nat
deriving DecidableEq, Repr

/-- The freshly constructed `PlotWindow`: empty registries, no active figure. -/
def PW.init : PW :=
  { figures_refs := [], figures_status := [], items := [],
    active_figure_num := none, info_text := "", figure_windows := [] }

/-- `has_figure`: `fig_num in self.figures_refs`. -/
def has_figure (pw : PW) (fig_num : Nat) : Bool :=
  (pw.figures_refs.lookup fig_num).isSome

/-- `PlotWindow.add_figure` of the list variant.  Returns the window state
together with the Python return value: this method has no `return` with a
value on either path, so Python yields `None` (modelled as `none`) both when
the id is already registered and when the record is created. -/
def add_figure (pw : PW) (fig : Fig) : PW × Option Bool :=
  if (pw.figures_refs.lookup fig.number).isSome then (pw, none)
  else
    ({ pw with
        figures_refs := pw.figures_refs ++ [(fig.number, fig)],
        figures_status := pw.figures_status ++ [(fig.number, true)],
        items := pw.items ++
          [{ num := fig.number, text := "Figure " ++ toString fig.number,
             color := "green" }] },
     none)

/-- `PlotWindow.mark_figure_closed`: flips the status to `False` and
re-labels the matching list item, only when the id is known. -/
def mark_figure_closed (pw : PW) (fig_num : Nat) : PW :=
  if (pw.figures_status.lookup fig_num).isSome then
    { pw with
        figures_status :=
          pw.figures_status.map (fun p => if p.1 = fig_num then (p.1, false) else p),
        items := pw.items.map (fun it =>
          if it.num = fig_num then
            { it with color := "red",
                      text := "Figure " ++ toString fig_num ++ " (Closed)" }
          else it) }
  else pw

/-- Python `repr` of a boolean, as interpolated by the info-panel f-string. -/
def pyBoolRepr (b : Bool) : String := if b then "True" else "False"

/-- `PlotWindow._update_info_panel`. -/
def update_info_panel (pw : PW) (fig_num : Nat) : PW :=
  match pw.figures_refs.lookup fig_num with
  | some fig =>
      { pw with info_text :=
          "Figure " ++ toString fig_num ++ "\nAxes: " ++ toString fig.axesCount ++
          "\nClosed: " ++ pyBoolRepr (!((pw.figures_status.lookup fig_num).getD true)) }
  | none => pw

/-- `PlotWindow._update_active_marker`: rewrite every list item's text,
appending `" *"` to the active figure and `" (Closed)"` to closed ones. -/
def update_active_marker (pw : PW) : PW :=
  { pw with items := pw.items.map (fun it =>
      if !((pw.figures_status.lookup it.num).getD true) then
        { it with text := "Figure " ++ toString it.num ++ " (Closed)" }
      else
        { it with text := "Figure " ++ toString it.num ++
            (if pw.active_figure_num = some it.num then " *" else "") }) }

/-- Result of a user selection click: the new window state, the pyplot state,
the figure-switch calls made into the plotting engine (`plt.figure(n)`), and
the `figure_switched` signal emission, if any. -/
structure SelectResult where
  pw : PW
  plt : PltState
  engine_calls : List Nat
  emitted : Option Nat
deriving DecidableEq, Repr

/-- `PlotWindow._on_figure_selected` (user click on a list item carrying
`fig_num`): update the info panel; if the target's status defaults to closed,
clear the active pointer without touching the plotting engine; otherwise call
`plt.figure(fig_num)`, set the pointer and emit `figure_switched`; finally
refresh the active markers. -/
def on_figure_selected (pw : PW) (fig_num : Nat) (plt : PltState) : SelectResult :=
  let pw := update_info_panel pw fig_num
  if !((pw.figures_status.lookup fig_num).getD false) then
    let pw := { pw with active_figure_num := none }
    { pw := update_active_marker pw, plt := plt, engine_calls := [], emitted := none }
  else
    let plt := pltFigureSet plt fig_num
    let pw := { pw with active_figure_num := some fig_num }
    { pw := update_active_marker pw, plt := plt,
      engine_calls := [fig_num], emitted := some fig_num }

/-- `PlotWindow.refresh_figure`: re-point the stored reference at the handle
and redraw the detail window's canvas when one is open (no registry change
beyond the reference). -/
def refresh_figure (pw : PW) (fig : Fig) : PW :=
  { pw with figures_refs := dictSet pw.figures_refs fig.number fig }

/-- The registry operations a user or the console can drive on the list-based
manager, for stating lifecycle invariants. -/
inductive RegOp where
  | add (f : Fig)
  | refresh (f : Fig)
  | select (fig_num : Nat) (plt : PltState)
  | close (fig_num : Nat)
deriving DecidableEq, Repr

/-- Apply one registry operation, discarding the auxiliary outputs. -/
def applyOp (pw : PW) (op : RegOp) : PW :=
  match op with
  | .add f => (add_figure pw f).1
  | .refresh f => refresh_figure pw f
  | .select n plt => (on_figure_selected pw n plt).pw
  | .close n => mark_figure_closed pw n

end ListPlot

namespace TabPlot

/-! ## `source/gui/plot_window.py` — the tab-based Plot Viewer

State of `PlotWindow`: the `_figures` record list, the `_closed_figures`
set, the tab widget's tab count and current index. -/

/-- State of the tab-based `PlotWindow`.  Each `_figures` record is a tuple
`(fig_num, fig, canvas, toolbar)`; only the figure number is observable
here.  `current` is the tab widget's current index (`-1` when empty). -/
structure PW where
  figures : List Nat
  closed : List Nat
  tabs : Nat
  current : Int
deriving DecidableEq, Repr

/-- The freshly constructed tab viewer. -/
def PW.init : PW := { figures := [], closed := [], tabs := 0, current := -1 }

/-- `PlotWindow.has_figure`: any record with a matching number. -/
def has_figure (pw : PW) (fig_num : Nat) : Bool := pw.figures.contains fig_num

/-- `PlotWindow.add_figure` of the tab variant: `False` when the id is
already registered; otherwise append the record, add a tab, select it via
`setCurrentIndex(count - 1)` and return `True`. -/
def add_figure (pw : PW) (fig_num : Nat) : PW × Bool :=
  if has_figure pw fig_num then (pw, false)
  else
    ({ pw with figures := pw.figures ++ [fig_num],
               tabs := pw.tabs + 1,
               current := Int.ofNat pw.tabs }, true)

/-- `PlotWindow.mark_figure_closed`: `self._closed_figures.add(fig_num)`. -/
def mark_figure_closed (pw : PW) (fig_num : Nat) : PW :=
  if pw.closed.contains fig_num then pw else { pw with closed := pw.closed ++ [fig_num] }

/-- `PlotWindow._on_tab_changed`: emits `figure_switched` with the selected
record's figure number unless that figure is marked closed (or the index is
out of the record list's range).  Returns the emission. -/
def on_tab_changed (pw : PW) (index : Int) : Option Nat :=
  if 0 ≤ index ∧ index < Int.ofNat pw.figures.length then
    let fig_num := pw.figures.getD index.toNat 0
    if pw.closed.contains fig_num then none else some fig_num
  else none

end TabPlot

/-! ## The Scintilla console: string primitives

Kernel-computable models of the Python string operations the console uses.
All claims exercise ASCII text only; `isprintable` is modelled on the ASCII
and Latin-1 printable ranges, and `strip`/`rstrip` on ASCII whitespace. -/

/-- Python `str.isprintable` on one character (ASCII/Latin-1 fragment). -/
def pyCharPrintable (c : Char) : Bool :=
  (0x20 ≤ c.toNat && c.toNat ≤ 0x7E) || (0xA0 ≤ c.toNat)

/-- Python `str.isprintable` (true on the empty string, as in Python). -/
def pyIsPrintable (s : String) : Bool := s.data.all pyCharPrintable

/-- Python `str.strip()`. -/
def pyStrip (s : String) : String :=
  String.mk (((s.data.dropWhile Char.isWhitespace).reverse.dropWhile
    Char.isWhitespace).reverse)

/-- Python `str.rstrip()`. -/
def pyRstrip (s : String) : String :=
  String.mk ((s.data.reverse.dropWhile Char.isWhitespace).reverse)

/-- Python `str.startswith`. -/
def pyStartsWith (s pre : String) : Bool := pre.data.isPrefixOf s.data

/-- Take the first `n` characters (character-count slicing, as Scintilla's
line/index positions are character based for the ASCII text at hand). -/
def strTake (s : String) (n : Nat) : String := String.mk (s.data.take n)

/-- Drop the first `n` characters. -/
def strDrop (s : String) (n : Nat) : String := String.mk (s.data.drop n)

/-- Split a character list at newline characters (the line structure Qt
Scintilla maintains for a document). -/
def splitNlAux : List Char → List Char → List (List Char)
  | [], acc => [acc.reverse]
  | c :: rest, acc =>
      if c = '\n' then acc.reverse :: splitNlAux rest []
      else splitNlAux rest (c :: acc)

/-- Split a document text into its lines (`"" ↦ [""]`, trailing newline
yields a final empty line). -/
def sciSplit (s : String) : List String := (splitNlAux s.data []).map String.mk

/-- `"\n".join(...)`, the inverse of `sciSplit`. -/
def joinNl (l : List String) : String := String.intercalate "\n" l

/-! ### The ANSI escape stripper

`dockable_console.py` (and `embedded_console.py`) strip terminal color
escapes with the fixed regular expression matching an ESC byte followed by
either a single byte in `[0x40-0x5A]` or `[0x5C-0x5F]`, or a CSI sequence:
`[`, parameter bytes `[0x30-0x3F]`, intermediate bytes `[0x20-0x2F]`, and a
final byte `[0x40-0x7E]`. -/

/-- CSI parameter bytes, `0x30` to `0x3F`. -/
def ansiParamByte (c : Char) : Bool := 0x30 ≤ c.toNat && c.toNat ≤ 0x3F

/-- CSI intermediate bytes, `0x20` to `0x2F`. -/
def ansiInterByte (c : Char) : Bool := 0x20 ≤ c.toNat && c.toNat ≤ 0x2F

/-- CSI final bytes, `0x40` to `0x7E`. -/
def ansiFinalByte (c : Char) : Bool := 0x40 ≤ c.toNat && c.toNat ≤ 0x7E

/-- The single-character escapes of the first alternative: `0x40` to `0x5A` or `0x5C` to `0x5F`. -/
def ansiSingleByte (c : Char) : Bool :=
  (0x40 ≤ c.toNat && c.toNat ≤ 0x5A) || (0x5C ≤ c.toNat && c.toNat ≤ 0x5F)

/-- Left-to-right scan of `re.sub(pattern, "", text)`: on a match, drop the
matched escape sequence and continue after it; on a failed match at an ESC,
keep the character and continue one position later.  The scan consumes at
least one input character per step, so `remove_ansi_codes` supplying the
input's length as the step budget computes the full substitution. -/
def removeAnsiAux : Nat → List Char → List Char
  | 0, l => l
  | _, [] => []
  | fuel + 1, c :: rest =>
    if c.toNat = 0x1B then
      match rest with
      | [] => [c]
      | d :: rest2 =>
        if d = '[' then
          match (rest2.dropWhile ansiParamByte).dropWhile ansiInterByte with
          | e :: r5 =>
            if ansiFinalByte e then removeAnsiAux fuel r5
            else c :: removeAnsiAux fuel rest
          | [] => c :: removeAnsiAux fuel rest
        else if ansiSingleByte d then removeAnsiAux fuel rest2
        else c :: removeAnsiAux fuel rest
    else c :: removeAnsiAux fuel rest

/-- `ScintillaConsole.remove_ansi_codes`. -/
def remove_ansi_codes (s : String) : String :=
  String.mk (removeAnsiAux s.data.length s.data)

/-! ## The Scintilla console: data model

One state type serves both near-duplicate console widgets
(`dockable_console.py` and `embedded_console.py`); the methods that differ
between the two files get separate definitions (suffix `E` for the embedded
variant).  The render log records every appended text run with the Scintilla
style it was given (0 = default); the sink fields model `sys.stdout` /
`sys.stderr` redirection by IPython's `capture_output` context manager. -/

/-- A Python exception class observable in the model. -/
inductive PyError where
  | typeError
  | attributeError
deriving DecidableEq, Repr

/-- Where a process output stream currently points. -/
inductive Sink where
  | terminal
  | captureBuf
deriving DecidableEq, Repr

/-- The keys the console's `keyPressEvent` distinguishes. -/
inductive Key where
  | pageUp | pageDown | retKey | upKey | downKey | backspace | delete | charKey
deriving DecidableEq, Repr

/-- Keyboard modifier state: `Mods.isEmpty` models Python's falsiness test
`not modifiers`, and the Shift bit is tested for multi-line input. -/
structure Mods where
  shift : Bool
  other : Bool
deriving DecidableEq, Repr

def Mods.isEmpty (m : Mods) : Bool := !m.shift && !m.other

/-- A key event: the key, its `event.text()`, and the modifiers held. -/
structure KeyEvent where
  key : Key
  text : String
  mods : Mods
deriving DecidableEq, Repr

/-- `plt.gcf().number` (meaningful when figures exist). -/
def pltGcfNum (p : ListPlot.PltState) : Nat := p.cur.getD 0

/-- `plt.gcf().get_axes() != []` for the current figure. -/
def pltGcfHasAxes (p : ListPlot.PltState) : Bool :=
  (p.figs.lookup (pltGcfNum p)).getD false

/-- `plt.close(n)`: drop the figure; if it was current, matplotlib falls back
to the most recently created remaining figure. -/
def pltClose (p : ListPlot.PltState) (n : Nat) : ListPlot.PltState :=
  let figs := p.figs.filter (fun q => q.1 != n)
  { figs := figs,
    cur := if p.cur = some n then (figs.map Prod.fst).getLast? else p.cur }

/-- What one `shell.run_cell(code)` call did: the text written to the two
captured streams, the exception escaping the call (if any), and the resulting
pyplot state.  Writes listed are those made before any exception. -/
structure RunCellResult where
  stdout : String
  stderr : String
  outcome : Option String
  plt : ListPlot.PltState

/-- The evaluation-engine collaborator (IPython shell): statement
completeness checking and cell execution over a persistent namespace. -/
structure Engine where
  check_complete : String → String
  run_cell : String → ListPlot.PltState → RunCellResult

/-- The console widget state: the document (a list of lines without their
terminators), prompt bookkeeping, command history and its cursor, the text
cursor and selection, the append log with styles, stream redirection state,
and the plotting collaborator plus plot-window mirror. -/
structure ConsoleState where
  buffer : List String
  prompt_str : String
  prompt_line : Nat
  history : List String
  in_history_mode : Bool
  history_pending_input : String
  history_index : Nat
  cursor : Nat × Nat
  selection : Option (Nat × Nat × Nat × Nat)
  render_log : List (String × Nat)
  sys_stdout : Sink
  sys_stderr : Sink
  captured_out : String
  captured_err : String
  terminal_out : String
  plt : ListPlot.PltState
  pwin : TabPlot.PW
  pwin_visible : Bool
  exec_log : List String
deriving DecidableEq, Repr

/-! ### Scintilla buffer primitives -/

/-- `QsciScintilla.text(i)`: line `i` including its line terminator, except
on the last line. -/
def sciText (buf : List String) (i : Nat) : String :=
  if i + 1 < buf.length then buf.getD i "" ++ "\n" else buf.getD i ""

/-- `self.text()`: the whole document. -/
def sciFullText (buf : List String) : String := joinNl buf

/-- Insert `s` at a line/index position (Scintilla `insertAt` / `insert`). -/
def insertAtLineIdx (buf : List String) (s : String) (line idx : Nat) :
    List String :=
  let l := buf.getD line ""
  buf.take line ++ sciSplit (strTake l idx ++ s ++ strDrop l idx)
    ++ buf.drop (line + 1)

/-- Remove the text between two document positions (selection removal with a
normalized, start-before-end selection). -/
def removeRange (buf : List String) (l1 i1 l2 i2 : Nat) : List String :=
  buf.take l1 ++ [strTake (buf.getD l1 "") i1 ++ strDrop (buf.getD l2 "") i2]
    ++ buf.drop (l2 + 1)

/-- Cursor position after inserting `s` at `(l, i)`. -/
def advanceCursor (l i : Nat) (s : String) : Nat × Nat :=
  let parts := sciSplit s
  if parts.length ≤ 1 then (l, i + s.length)
  else (l + (parts.length - 1), (parts.getLastD "").length)

namespace Console

def STYLE_STDERR : Nat := 128
def STYLE_SYSTEM : Nat := 129

/-- `moveCursorToEnd`: cursor to the end of the last line. -/
def moveCursorToEnd (st : ConsoleState) : ConsoleState :=
  { st with cursor :=
      (st.buffer.length - 1, (st.buffer.getD (st.buffer.length - 1) "").length) }

/-- Insert at the current cursor position (`self.insert(text)`), advancing
the cursor past the inserted text. -/
def insertAtCursor (st : ConsoleState) (s : String) : ConsoleState :=
  { st with buffer := insertAtLineIdx st.buffer s st.cursor.1 st.cursor.2,
            cursor := advanceCursor st.cursor.1 st.cursor.2 s }

/-- `appendText`: `setText(self.text() + text)` (which replaces the document
and drops any selection) followed by `moveCursorToEnd`; the run is logged
with the default style. -/
def appendText (st : ConsoleState) (s : String) : ConsoleState :=
  moveCursorToEnd { st with
    buffer := sciSplit (sciFullText st.buffer ++ s),
    selection := none,
    render_log := st.render_log ++ [(s, 0)] }

/-- `appendTextStyled`: move to end, set up styling for the run, insert. -/
def appendTextStyled (st : ConsoleState) (s : String) (style : Nat) :
    ConsoleState :=
  let st := moveCursorToEnd st
  insertAtCursor { st with render_log := st.render_log ++ [(s, style)] } s

/-- `get_current_input`: join `text(i)` from the prompt line to the end. -/
def get_current_input (st : ConsoleState) : String :=
  joinNl ((List.range' st.prompt_line (st.buffer.length - st.prompt_line)).map
    (sciText st.buffer))

/-- `replace_current_input`: select from the prompt line to the end of the
document, remove it, insert the new text (or the bare prompt string when the
new text is empty) at the prompt line, and move the cursor to the end. -/
def replace_current_input (st : ConsoleState) (new_text : String) :
    ConsoleState :=
  let n := st.buffer.length
  let last_idx := (st.buffer.getD (n - 1) "").length
  let st1 : ConsoleState := { st with
    buffer := removeRange st.buffer st.prompt_line 0 (n - 1) last_idx,
    selection := none }
  let t := if new_text.length = 0 then st.prompt_str else new_text
  moveCursorToEnd
    { st1 with buffer := insertAtLineIdx st1.buffer t st.prompt_line 0 }

/-- `reset_prompt`: append the prompt string and point `prompt_line` at the
last line. -/
def reset_prompt (st : ConsoleState) : ConsoleState :=
  let st := appendText st st.prompt_str
  { st with prompt_line := st.buffer.length - 1 }

/-- `insert_system_message`: styled insertion at the end of the document. -/
def insert_system_message (st : ConsoleState) (message : String) :
    ConsoleState :=
  let st := moveCursorToEnd st
  insertAtCursor
    { st with render_log := st.render_log ++ [(message, STYLE_SYSTEM)] } message

/-- `insert_message_above_prompt`: save the user's composing text (prompt
prefix stripped), clear the prompt region, append the styled message, then
replay the prompt and the saved input. -/
def insert_message_above_prompt (st : ConsoleState) (message : String) :
    ConsoleState :=
  let total := st.buffer.length
  let input_lines := (List.range' st.prompt_line (total - st.prompt_line)).map
    (fun i =>
      let line := sciText st.buffer i
      if pyStartsWith line st.prompt_str then strDrop line st.prompt_str.length
      else line)
  let user_input := pyRstrip (joinNl input_lines)
  let last_line_index := (sciText st.buffer (st.buffer.length - 1)).length
  let st : ConsoleState := { st with
    buffer := removeRange st.buffer st.prompt_line 0 (st.buffer.length - 1)
      last_line_index,
    selection := none }
  let st := appendText st "\n"
  let st := insert_system_message st (message ++ "\n")
  let st := appendText st st.prompt_str
  let st : ConsoleState := { st with prompt_line := st.buffer.length - 1 }
  if user_input ≠ "" then moveCursorToEnd (insertAtCursor st user_input)
  else st

/-- Write to `sys.stdout` (wherever it currently points). -/
def writeStdout (st : ConsoleState) (s : String) : ConsoleState :=
  match st.sys_stdout with
  | .terminal => { st with terminal_out := st.terminal_out ++ s }
  | .captureBuf => { st with captured_out := st.captured_out ++ s }

/-- Write to `sys.stderr` (wherever it currently points). -/
def writeStderr (st : ConsoleState) (s : String) : ConsoleState :=
  match st.sys_stderr with
  | .terminal => { st with terminal_out := st.terminal_out ++ s }
  | .captureBuf => { st with captured_err := st.captured_err ++ s }

/-- `ensure_active_figure`: create a blank figure when none exists. -/
def ensure_active_figure (st : ConsoleState) : ConsoleState :=
  if st.plt.figs = [] then { st with plt := ListPlot.pltFigureNew st.plt }
  else st

/-- `_on_figure_switched` (dockable variant): warn about closed figures,
otherwise activate the figure in pyplot and announce the switch above the
prompt. -/
def on_figure_switched (st : ConsoleState) (fig_num : Int) : ConsoleState :=
  if fig_num = -1 then
    insert_message_above_prompt st
      "# Warning: Attempted to switch to a closed figure.\n"
  else
    let st := { st with plt := ListPlot.pltFigureSet st.plt fig_num.toNat }
    insert_message_above_prompt st
      ("# Switched to Figure " ++ toString fig_num ++ "\n")

end Console

namespace Console

/-! ### Editing behavior inherited from the base widget

The `super().keyPressEvent(event)` calls fall through to QsciScintilla's
default editing: character (and newline) insertion replaces any selection,
Backspace deletes the character before the cursor or joins with the previous
line, Delete deletes the character under the cursor or joins with the next
line. -/

/-- Remove the (normalized) selection, leaving the cursor at its start. -/
def removeSelection (st : ConsoleState) (l1 i1 l2 i2 : Nat) : ConsoleState :=
  { st with buffer := removeRange st.buffer l1 i1 l2 i2,
            selection := none,
            cursor := (l1, i1) }

/-- Typed-text insertion: replace the selection if any, else insert at the
cursor. -/
def editInsert (st : ConsoleState) (s : String) : ConsoleState :=
  match st.selection with
  | some (l1, i1, l2, i2) => insertAtCursor (removeSelection st l1 i1 l2 i2) s
  | none => insertAtCursor st s

/-- The base widget's handling of a key the console did not intercept. -/
def qsciDefaultKey (ev : KeyEvent) (st : ConsoleState) : ConsoleState :=
  match ev.key with
  | .charKey => editInsert st ev.text
  | .retKey => editInsert st "\n"
  | .backspace =>
    match st.selection with
    | some (l1, i1, l2, i2) => removeSelection st l1 i1 l2 i2
    | none =>
      if 0 < st.cursor.2 then
        let b := removeRange st.buffer st.cursor.1 (st.cursor.2 - 1) st.cursor.1 st.cursor.2
        { st with buffer := b, cursor := (st.cursor.1, st.cursor.2 - 1) }
      else if 0 < st.cursor.1 then
        let plen := (st.buffer.getD (st.cursor.1 - 1) "").length
        let b := removeRange st.buffer (st.cursor.1 - 1) plen st.cursor.1 0
        { st with buffer := b, cursor := (st.cursor.1 - 1, plen) }
      else st
  | .delete =>
    match st.selection with
    | some (l1, i1, l2, i2) => removeSelection st l1 i1 l2 i2
    | none =>
      if st.cursor.2 < (st.buffer.getD st.cursor.1 "").length then
        let b := removeRange st.buffer st.cursor.1 st.cursor.2 st.cursor.1 (st.cursor.2 + 1)
        { st with buffer := b }
      else if st.cursor.1 + 1 < st.buffer.length then
        let b := removeRange st.buffer st.cursor.1 st.cursor.2 (st.cursor.1 + 1) 0
        { st with buffer := b }
      else st
  | _ => st

/-! ### The console state machine proper -/

/-- The prefix-filtered history match list (recomputed on every Up/Down). -/
def matchesOf (st : ConsoleState) : List String :=
  st.history.filter (fun h => pyStartsWith h (pyStrip st.history_pending_input))

/-- The Up-arrow handler: on first press snapshot the composing text and
start at `len(history)`; then step the index down (Python's
`max(0, i - 1)`, which coincides with truncated `Nat` subtraction), and
display the match at `index % len(matches)`. -/
def historyBack (st : ConsoleState) : ConsoleState :=
  let st :=
    if !st.in_history_mode then
      { st with history_pending_input := get_current_input st,
                in_history_mode := true,
                history_index := st.history.length }
    else st
  let ms := matchesOf st
  if ms.isEmpty then st
  else
    let idx := st.history_index - 1
    replace_current_input { st with history_index := idx }
      (ms.getD (idx % ms.length) "")

/-- The Down-arrow handler: ignore when idle; past the last match (or with no
matches) restore the pending input and return to idle, else advance. -/
def historyForward (st : ConsoleState) : ConsoleState :=
  if !st.in_history_mode then st
  else
    let ms := matchesOf st
    if ms.isEmpty then
      let st := replace_current_input st st.history_pending_input
      { st with in_history_mode := false, history_index := st.history.length }
    else if ms.length ≤ st.history_index + 1 then
      let st := replace_current_input st st.history_pending_input
      { st with in_history_mode := false, history_index := st.history.length }
    else
      let idx := st.history_index + 1
      replace_current_input { st with history_index := idx }
        (ms.getD (idx % ms.length) "")

/-- The submitted source: `text(i)` joined from the prompt line to the end
of the document, stripped (`run_current_input`'s extraction loop). -/
def currentCode (st : ConsoleState) : String :=
  pyStrip (joinNl ((List.range' st.prompt_line
    (st.buffer.length - st.prompt_line)).map (sciText st.buffer)))

/-- `render_inline_plot` (dockable variant): hide the plot window when no
figures exist; skip axes-less figures; refresh a known figure — but the
tab-based `PlotWindow` defines `refresh_figure_tab`, not `refresh_figure`,
so `self.plot_window.refresh_figure(fig)` raises `AttributeError`; add and
reveal a new figure.  Adding selects the new tab: `setCurrentIndex` fires
`currentChanged` only when the index actually changes, and on the very first
tab `addTab` already selected index 0 while `_figures` was still empty, so
only later additions bounce a `figure_switched` signal back into the
console. -/
def render_inline_plot (st : ConsoleState) :
    Except (PyError × ConsoleState) ConsoleState :=
  let st := writeStdout st "rendering inline figures.\n"
  if st.plt.figs = [] then .ok { st with pwin_visible := false }
  else
    let fig_num := pltGcfNum st.plt
    if !(pltGcfHasAxes st.plt) then .ok st
    else if TabPlot.has_figure st.pwin fig_num then .error (.attributeError, st)
    else
      let oldTabs := st.pwin.tabs
      let pr := TabPlot.add_figure st.pwin fig_num
      let st := { st with pwin := pr.1 }
      let st :=
        if oldTabs = 0 then st
        else
          match TabPlot.on_tab_changed pr.1 pr.1.current with
          | some fn => on_figure_switched st (Int.ofNat fn)
          | none => st
      if pr.2 then .ok { st with pwin_visible := true } else .ok st

/-- `run_current_input` (dockable variant).  The empty-input branch executes
`self.appendText("\n" + self.prompt_line)`, concatenating a string with the
integer `prompt_line`, which raises `TypeError` before any state mutation.
Exceptions carry the console state at the moment of the raise. -/
def run_current_input (eng : Engine) (st : ConsoleState) :
    Except (PyError × ConsoleState) ConsoleState :=
  let code := currentCode st
  if code = "" then .error (.typeError, st)
  else
    let st := { st with history := st.history ++ [code] }
    let st := { st with history_index := st.history.length }
    if eng.check_complete code ≠ "complete" then .ok (appendText st "\n... ")
    else
      let st := ensure_active_figure st
      let before_plt := st.plt.figs.map Prod.fst
      -- with capture_output() as captured:
      let savedOut := st.sys_stdout
      let savedErr := st.sys_stderr
      let st : ConsoleState := { st with
        sys_stdout := Sink.captureBuf, sys_stderr := Sink.captureBuf,
        captured_out := "", captured_err := "" }
      let r := eng.run_cell code st.plt
      let st := { st with exec_log := st.exec_log ++ [code], plt := r.plt }
      let st := writeStdout st r.stdout
      let st := writeStderr st r.stderr
      -- except Exception as e: print(f"Error: {e}")   (stdout is captured)
      let st := match r.outcome with
        | none => st
        | some msg => writeStdout st ("Error: " ++ msg ++ "\n")
      let stdout := st.captured_out
      let stderr := st.captured_err
      -- scope exit of capture_output: restore the prior streams
      let st : ConsoleState := { st with
        sys_stdout := savedOut, sys_stderr := savedErr }
      let closed_plt := before_plt.filter
        (fun fn => !((r.plt.figs.lookup fn).isSome))
      let st := { st with
        pwin := closed_plt.foldl TabPlot.mark_figure_closed st.pwin }
      let st := if stdout ≠ "" then
          appendText st ("\n" ++ remove_ansi_codes stdout)
        else st
      let st := if stderr ≠ "" then
          appendTextStyled st (remove_ansi_codes stderr) STYLE_STDERR
        else st
      -- update_autocompletions touches only the completion collaborator
      match render_inline_plot st with
      | .error e => .error e
      | .ok st =>
        let st := appendText st "\n"
        .ok (reset_prompt st)

/-- Does the current selection start above the prompt line? -/
def selectionAbovePrompt (st : ConsoleState) : Bool :=
  match st.selection with
  | some sel => decide (sel.1 < st.prompt_line)
  | none => false

/-- `keyPressEvent` of the dockable console, with its guard order: page
scrolling; printable no-modifier input above the prompt redirected to the
end; selection reaching above the prompt rejected; Backspace/Delete into the
prompt rejected; Enter submits (Shift+Enter edits); Up/Down navigate
history; remaining keys above the prompt rejected; everything else handled
by the base widget. -/
def keyPressEvent (eng : Engine) (ev : KeyEvent) (st : ConsoleState) :
    Except (PyError × ConsoleState) ConsoleState :=
  if ev.key = Key.pageUp ∨ ev.key = Key.pageDown then .ok st
  else if st.cursor.1 < st.prompt_line ∧ pyIsPrintable ev.text = true ∧
      0 < ev.text.length ∧ Mods.isEmpty ev.mods = true then
    let st : ConsoleState := { st with selection := none }
    let st := moveCursorToEnd st
    let st := insertAtCursor st ev.text
    .ok (moveCursorToEnd st)
  else if selectionAbovePrompt st then .ok st
  else if (ev.key = Key.backspace ∨ ev.key = Key.delete) ∧
      (st.cursor.1 < st.prompt_line ∨
        (st.cursor.1 = st.prompt_line ∧ st.cursor.2 ≤ st.prompt_str.length)) then
    .ok st
  else if ev.key = Key.retKey then
    if ev.mods.shift then .ok (qsciDefaultKey ev st)
    else run_current_input eng st
  else if ev.key = Key.upKey then .ok (historyBack st)
  else if ev.key = Key.downKey then .ok (historyForward st)
  else if st.cursor.1 < st.prompt_line then .ok st
  else .ok (qsciDefaultKey ev st)

/-- `render_inline_plot` of the embedded variant: hide the viewer window when
no figures exist, else redraw it from the current figure and `plt.close` that
figure to prevent an external popup. -/
def render_inline_plotE (st : ConsoleState) : ConsoleState :=
  if st.plt.figs = [] then { st with pwin_visible := false }
  else
    let st := { st with pwin_visible := true }
    { st with plt := pltClose st.plt (pltGcfNum st.plt) }

/-- `run_current_input` of the embedded variant: same submission pipeline
without the figure bookkeeping, with the same `TypeError` slip on empty
input, and with prompt reset before the autocompletion/plot refresh. -/
def run_current_inputE (eng : Engine) (st : ConsoleState) :
    Except (PyError × ConsoleState) ConsoleState :=
  let code := currentCode st
  if code = "" then .error (.typeError, st)
  else
    let st := { st with history := st.history ++ [code] }
    let st := { st with history_index := st.history.length }
    if eng.check_complete code ≠ "complete" then .ok (appendText st "\n... ")
    else
      let savedOut := st.sys_stdout
      let savedErr := st.sys_stderr
      let st : ConsoleState := { st with
        sys_stdout := Sink.captureBuf, sys_stderr := Sink.captureBuf,
        captured_out := "", captured_err := "" }
      let r := eng.run_cell code st.plt
      let st := { st with exec_log := st.exec_log ++ [code], plt := r.plt }
      let st := writeStdout st r.stdout
      let st := writeStderr st r.stderr
      let st := match r.outcome with
        | none => st
        | some msg => writeStdout st ("Error: " ++ msg ++ "\n")
      let stdout := st.captured_out
      let stderr := st.captured_err
      let st : ConsoleState := { st with
        sys_stdout := savedOut, sys_stderr := savedErr }
      let st := if stdout ≠ "" then
          appendText st ("\n" ++ remove_ansi_codes stdout)
        else st
      let st := if stderr ≠ "" then
          appendTextStyled st (remove_ansi_codes stderr) STYLE_STDERR
        else st
      let st := appendText st ("\n" ++ st.prompt_str)
      let st : ConsoleState := { st with prompt_line := st.buffer.length - 1 }
      .ok (render_inline_plotE st)

/-- `keyPressEvent` of the embedded console: as the dockable one but without
the page-scrolling passthrough and without the above-prompt redirect. -/
def keyPressEventE (eng : Engine) (ev : KeyEvent) (st : ConsoleState) :
    Except (PyError × ConsoleState) ConsoleState :=
  if selectionAbovePrompt st then .ok st
  else if (ev.key = Key.backspace ∨ ev.key = Key.delete) ∧
      (st.cursor.1 < st.prompt_line ∨
        (st.cursor.1 = st.prompt_line ∧ st.cursor.2 ≤ st.prompt_str.length)) then
    .ok st
  else if ev.key = Key.retKey then
    if ev.mods.shift then .ok (qsciDefaultKey ev st)
    else run_current_inputE eng st
  else if ev.key = Key.upKey then .ok (historyBack st)
  else if ev.key = Key.downKey then .ok (historyForward st)
  else if st.cursor.1 < st.prompt_line then .ok st
  else .ok (qsciDefaultKey ev st)

/-- The module-header advisory appended by the dockable console constructor. -/
def modulesMessage : String :=
  "# The following modules have been imported: \n# numpy as np, matplotlib.pyplot as plt, pandas as pd, sklearn as skl\n"

/-- The dockable console right after construction: welcome text, module
advisory, a blank line, and the first prompt, with `prompt_line` pointing at
the prompt. -/
def initConsole (prompt_str welcome_message : String) : ConsoleState :=
  let st : ConsoleState := {
    buffer := [""], prompt_str := prompt_str, prompt_line := 0,
    history := [], in_history_mode := false, history_pending_input := "",
    history_index := 0, cursor := (0, 0), selection := none, render_log := [],
    sys_stdout := Sink.terminal, sys_stderr := Sink.terminal,
    captured_out := "", captured_err := "", terminal_out := "",
    plt := { figs := [], cur := none }, pwin := TabPlot.PW.init,
    pwin_visible := false, exec_log := [] }
  let st := appendText st welcome_message
  let st := appendText st modulesMessage
  let st := appendText st "\n"
  let st := appendText st prompt_str
  { st with prompt_line := st.buffer.length - 1 }

end Console

/-! ## Concrete scenario states for the plot managers -/

/-- A pyplot state holding the single open blank figure 1. -/
def scenPlt : ListPlot.PltState := { figs := [(1, false)], cur := some 1 }

/-- List manager after registering figure 1. -/
def scenAdd1 : ListPlot.PW :=
  (ListPlot.add_figure ListPlot.PW.init { number := 1, axesCount := 1 }).1

/-- ... then the user clicks figure 1 (open), making it active. -/
def scenSel1 : ListPlot.SelectResult := ListPlot.on_figure_selected scenAdd1 1 scenPlt

/-- ... then figure 1 is closed by evaluated code and marked closed. -/
def scenClosed1 : ListPlot.PW := ListPlot.mark_figure_closed scenSel1.pw 1

/-- A closed-figure-1 starting state for the lifecycle invariant. -/
def scenLifeStart : ListPlot.PW := ListPlot.mark_figure_closed scenAdd1 1

/-- A sequence of registry operations thrown at the closed record. -/
def scenLifeOps : List ListPlot.RegOp :=
  [ListPlot.RegOp.add { number := 1, axesCount := 4 },
   ListPlot.RegOp.refresh { number := 1, axesCount := 5 },
   ListPlot.RegOp.select 1 scenPlt,
   ListPlot.RegOp.close 1,
   ListPlot.RegOp.add { number := 2, axesCount := 0 },
   ListPlot.RegOp.select 2 scenPlt]

/-- Decidable equality of exception-carrying results, for evaluating the
model on concrete inputs. -/
instance {e a : Type} [DecidableEq e] [DecidableEq a] : DecidableEq (Except e a) :=
  fun x y =>
  match x, y with
  | .ok v, .ok w =>
    if h : v = w then isTrue (by rw [h]) else isFalse (fun hc => by cases hc; exact h rfl)
  | .error v, .error w =>
    if h : v = w then isTrue (by rw [h]) else isFalse (fun hc => by cases hc; exact h rfl)
  | .ok _, .error _ => isFalse (fun hc => by cases hc)
  | .error _, .ok _ => isFalse (fun hc => by cases hc)

/-! ## Concrete scenario states for the console -/

/-- A character key press with no modifiers held. -/
def charEv (s : String) : KeyEvent :=
  { key := Key.charKey, text := s, mods := { shift := false, other := false } }

/-- A character key press with Shift held (e.g. typing an uppercase letter). -/
def shiftCharEv (s : String) : KeyEvent :=
  { key := Key.charKey, text := s, mods := { shift := true, other := false } }

/-- The Return key without modifiers (submit). -/
def enterEv : KeyEvent :=
  { key := Key.retKey, text := "\r", mods := { shift := false, other := false } }

/-- The Up-arrow key (navigate back). -/
def upEv : KeyEvent :=
  { key := Key.upKey, text := "", mods := { shift := false, other := false } }

/-- The Down-arrow key (navigate forward). -/
def downEv : KeyEvent :=
  { key := Key.downKey, text := "", mods := { shift := false, other := false } }

/-- Key events typing a string one character at a time. -/
def typeEvents (s : String) : List KeyEvent :=
  s.data.map (fun c => charEv (String.mk [c]))

/-- Drive a sequence of key events through the dockable console's
`keyPressEvent`, stopping at the first uncaught exception. -/
def pressKeys (eng : Engine) :
    ConsoleState → List KeyEvent → Except (PyError × ConsoleState) ConsoleState
  | st, [] => .ok st
  | st, ev :: rest =>
    match Console.keyPressEvent eng ev st with
    | .ok st2 => pressKeys eng st2 rest
    | .error e => .error e

/-- An engine stub: every statement is complete; execution is silent, raises
nothing and leaves pyplot untouched. -/
def stubEngine : Engine :=
  { check_complete := fun _ => "complete",
    run_cell := fun _ p => { stdout := "", stderr := "", outcome := none, plt := p } }

/-- An engine stub whose execution raises an exception rendered as `boom`
after closing every pyplot figure. -/
def raisingEngine : Engine :=
  { check_complete := fun _ => "complete",
    run_cell := fun _ _ =>
      { stdout := "", stderr := "", outcome := some "boom",
        plt := { figs := [], cur := none } } }

/-- The dockable console as constructed, with a one-line welcome banner. -/
def demoConsole : ConsoleState := Console.initConsole ">>> " "# W\n"

/-- Submit `a=1` then `b=2` from a fresh idle console. -/
def keysAB : List KeyEvent :=
  typeEvents "a=1" ++ [enterEv] ++ typeEvents "b=2" ++ [enterEv]

/-- Submit `alpha=1`, `beta=2`, `alpha=3`, then type `al` at the prompt. -/
def keysAlpha : List KeyEvent :=
  typeEvents "alpha=1" ++ [enterEv] ++ typeEvents "beta=2" ++ [enterEv] ++
    typeEvents "alpha=3" ++ [enterEv] ++ typeEvents "al"

/-- The console about to navigate: three submissions and `al` composed. -/
def c5base : ConsoleState :=
  match pressKeys stubEngine demoConsole keysAlpha with
  | .ok st => st
  | .error e => e.2

/-- Iterated Up-arrow handling. -/
def upIter : Nat → ConsoleState → ConsoleState
  | 0, st => st
  | k + 1, st => upIter k (Console.historyBack st)

/-- The history entries after the three `alpha`/`beta` submissions. -/
def c5hist : List String := [">>> alpha=1", ">>> beta=2", ">>> alpha=3"]

/-- The prefix-filtered matches for the pending input `>>> al`. -/
def c5matches : List String := [">>> alpha=1", ">>> alpha=3"]

/-- The read-only transcript above the prompt in the `c5base` scenario. -/
def c5T : List String :=
  ["# W", "# The following modules have been imported: ",
   "# numpy as np, matplotlib.pyplot as plt, pandas as pd, sklearn as skl",
   "", ">>> alpha=1", ">>> beta=2", ">>> alpha=3"]

/-- The navigating console displaying match `m` with history index `idx`:
every other field is what the `c5base` run produced. -/
def c5State (idx : Nat) (m : String) : ConsoleState :=
  { buffer := c5T ++ [m], prompt_str := ">>> ", prompt_line := 7,
    history := c5hist, in_history_mode := true,
    history_pending_input := ">>> al", history_index := idx,
    cursor := (7, m.length), selection := none,
    render_log := c5base.render_log, sys_stdout := Sink.terminal,
    sys_stderr := Sink.terminal, captured_out := c5base.captured_out,
    captured_err := c5base.captured_err, terminal_out := c5base.terminal_out,
    plt := c5base.plt, pwin := TabPlot.PW.init, pwin_visible := false,
    exec_log := c5base.exec_log }

/-- The clamped navigation state: index 0, oldest match displayed. -/
def c6w : ConsoleState := c5State 0 ">>> alpha=1"

/-- The Backspace key without modifiers. -/
def bsEv : KeyEvent :=
  { key := Key.backspace, text := "\x08",
    mods := { shift := false, other := false } }

/-- A console whose cursor was clicked up into the read-only transcript. -/
def c10st : ConsoleState := { demoConsole with cursor := (0, 0) }

/-- A console state whose input region is whitespace only. -/
def blankInputConsole : ConsoleState :=
  { demoConsole with buffer := demoConsole.buffer.take 4 ++ ["   "] }

/-- The console with `x` composed at the prompt, ready to submit. -/
def c3typed : ConsoleState :=
  match pressKeys stubEngine demoConsole (typeEvents "x") with
  | .ok st => st
  | .error e => e.2

/-! ## Supporting lemmas -/

theorem lookup_cons {α : Type} (k a : Nat) (b : α) (t : List (Nat × α)) :
    ((a, b) :: t).lookup k = if k = a then some b else t.lookup k := by
  by_cases h : k = a
  · subst h
    simp [List.lookup]
  · have hb : (k == a) = false := beq_eq_false_iff_ne.mpr h
    simp [List.lookup, hb, h]

theorem lookup_append_of_some {α : Type} {l1 l2 : List (Nat × α)} {k : Nat} {v : α}
    (h : l1.lookup k = some v) : (l1 ++ l2).lookup k = some v := by
  induction l1 with
  | nil => simp [List.lookup] at h
  | cons p t ih =>
    obtain ⟨a, b⟩ := p
    rw [List.cons_append, lookup_cons]
    rw [lookup_cons] at h
    by_cases hk : k = a
    · rwa [if_pos hk] at h ⊢
    · rw [if_neg hk] at h ⊢
      exact ih h

theorem lookup_append_of_none {α : Type} {l1 l2 : List (Nat × α)} {k : Nat}
    (h : l1.lookup k = none) : (l1 ++ l2).lookup k = l2.lookup k := by
  induction l1 with
  | nil => simp
  | cons p t ih =>
    obtain ⟨a, b⟩ := p
    rw [List.cons_append, lookup_cons]
    rw [lookup_cons] at h
    by_cases hk : k = a
    · rw [if_pos hk] at h
      exact absurd h (by simp)
    · rw [if_neg hk] at h ⊢
      exact ih h

theorem lookup_map_setval {α : Type} {l : List (Nat × α)} {k : Nat} {v : α} :
    (l.map (fun p => if p.1 = k then (p.1, v) else p)).lookup k
      = (l.lookup k).map (fun _ => v) := by
  induction l with
  | nil => simp
  | cons p t ih =>
    obtain ⟨a, b⟩ := p
    by_cases hak : a = k
    · subst hak
      rw [List.map_cons, if_pos rfl, lookup_cons, lookup_cons, if_pos rfl, if_pos rfl]
      rfl
    · have hka : ¬ k = a := fun hc => hak hc.symm
      rw [List.map_cons, if_neg hak, lookup_cons, lookup_cons, if_neg hka, if_neg hka, ih]

theorem lookup_map_setval_ne {α : Type} {l : List (Nat × α)} {k k' : Nat} {v : α}
    (h : ¬ k = k') :
    (l.map (fun p => if p.1 = k' then (p.1, v) else p)).lookup k = l.lookup k := by
  induction l with
  | nil => simp
  | cons p t ih =>
    obtain ⟨a, b⟩ := p
    by_cases hak : a = k'
    · subst hak
      have hka : ¬ k = a := h
      rw [List.map_cons, if_pos rfl, lookup_cons, lookup_cons, if_neg hka, if_neg hka, ih]
    · rw [List.map_cons, if_neg hak, lookup_cons, lookup_cons, ih]

namespace ListPlot

theorem update_info_panel_status (pw : PW) (n : Nat) :
    (update_info_panel pw n).figures_status = pw.figures_status := by
  unfold update_info_panel
  cases pw.figures_refs.lookup n <;> rfl

theorem update_info_panel_refs (pw : PW) (n : Nat) :
    (update_info_panel pw n).figures_refs = pw.figures_refs := by
  unfold update_info_panel
  cases pw.figures_refs.lookup n <;> rfl

theorem update_info_panel_active (pw : PW) (n : Nat) :
    (update_info_panel pw n).active_figure_num = pw.active_figure_num := by
  unfold update_info_panel
  cases pw.figures_refs.lookup n <;> rfl

theorem update_info_panel_items (pw : PW) (n : Nat) :
    (update_info_panel pw n).items = pw.items := by
  unfold update_info_panel
  cases pw.figures_refs.lookup n <;> rfl

theorem update_info_panel_windows (pw : PW) (n : Nat) :
    (update_info_panel pw n).figure_windows = pw.figure_windows := by
  unfold update_info_panel
  cases pw.figures_refs.lookup n <;> rfl

/-- After `mark_figure_closed`, the Python read `figures_status.get(fig_num,
False)` is `False` whether or not the id was registered. -/
theorem status_after_close (pw : PW) (n : Nat) :
    (((mark_figure_closed pw n).figures_status.lookup n).getD false) = false := by
  unfold mark_figure_closed
  by_cases h : (pw.figures_status.lookup n).isSome
  · rw [if_pos h]
    simp only [lookup_map_setval]
    cases pw.figures_status.lookup n <;> simp
  · rw [if_neg h]
    cases hl : pw.figures_status.lookup n with
    | some v => rw [hl] at h; simp at h
    | none => simp [hl]

end ListPlot

namespace TabPlot

theorem figures_mark (pw : PW) (n : Nat) :
    (mark_figure_closed pw n).figures = pw.figures := by
  unfold mark_figure_closed
  split <;> rfl

theorem contains_mark (pw : PW) (n : Nat) :
    ((mark_figure_closed pw n).closed.contains n) = true := by
  unfold mark_figure_closed
  by_cases h : pw.closed.contains n
  · rw [if_pos h]; exact h
  · rw [if_neg h]
    simp [List.contains_iff_exists_mem_beq]

end TabPlot

namespace ListPlot

theorem update_active_marker_map_num (pw : PW) :
    (update_active_marker pw).items.map Item.num = pw.items.map Item.num := by
  unfold update_active_marker
  simp only [List.map_map]
  apply List.map_congr_left
  intro it _
  simp only [Function.comp_apply]
  split <;> rfl

theorem mark_items_map_num (pw : PW) (n : Nat) :
    (mark_figure_closed pw n).items.map Item.num = pw.items.map Item.num := by
  unfold mark_figure_closed
  split
  · simp only [List.map_map]
    apply List.map_congr_left
    intro it _
    simp only [Function.comp_apply]
    split <;> rfl
  · rfl

/-- The record-lifecycle invariant of a closed figure id: status is recorded
`False`, the handle reference is still registered, and the list still shows an
item for it. -/
def closedRecordInv (pw : PW) (fn : Nat) : Prop :=
  pw.figures_status.lookup fn = some false ∧
  (pw.figures_refs.lookup fn).isSome = true ∧
  fn ∈ pw.items.map Item.num

theorem applyOp_preserves_closed {pw : PW} {fn : Nat} (op : RegOp)
    (h : closedRecordInv pw fn) : closedRecordInv (applyOp pw op) fn := by
  obtain ⟨hst, href, hit⟩ := h
  cases op with
  | add f =>
    show closedRecordInv (add_figure pw f).1 fn
    unfold add_figure
    by_cases hc : (pw.figures_refs.lookup f.number).isSome
    · rw [if_pos hc]
      exact ⟨hst, href, hit⟩
    · rw [if_neg hc]
      obtain ⟨v, hv⟩ := Option.isSome_iff_exists.mp href
      refine ⟨lookup_append_of_some hst, ?_, ?_⟩
      · rw [lookup_append_of_some hv]; rfl
      · rw [List.map_append]
        exact List.mem_append_left _ hit
  | refresh f =>
    show closedRecordInv (refresh_figure pw f) fn
    unfold refresh_figure dictSet
    refine ⟨hst, ?_, hit⟩
    obtain ⟨v, hv⟩ := Option.isSome_iff_exists.mp href
    by_cases hp : (pw.figures_refs.lookup f.number).isSome
    · rw [if_pos hp]
      by_cases hfn : fn = f.number
      · subst hfn
        rw [lookup_map_setval, hv]; rfl
      · rw [lookup_map_setval_ne hfn, hv]; rfl
    · rw [if_neg hp, lookup_append_of_some hv]; rfl
  | close n =>
    show closedRecordInv (mark_figure_closed pw n) fn
    refine ⟨?_, ?_, ?_⟩
    · unfold mark_figure_closed
      by_cases hp : (pw.figures_status.lookup n).isSome
      · rw [if_pos hp]
        show (pw.figures_status.map
          (fun p => if p.1 = n then (p.1, false) else p)).lookup fn = some false
        by_cases hfn : fn = n
        · subst hfn
          rw [lookup_map_setval, hst]; rfl
        · rw [lookup_map_setval_ne hfn]; exact hst
      · rw [if_neg hp]; exact hst
    · unfold mark_figure_closed
      split <;> exact href
    · rw [mark_items_map_num]; exact hit
  | select n plt =>
    show closedRecordInv (on_figure_selected pw n plt).pw fn
    unfold on_figure_selected
    dsimp only
    split
    · refine ⟨?_, ?_, ?_⟩
      · rw [show (update_active_marker { update_info_panel pw n with
            active_figure_num := none }).figures_status
            = (update_info_panel pw n).figures_status from rfl,
          update_info_panel_status]
        exact hst
      · rw [show (update_active_marker { update_info_panel pw n with
            active_figure_num := none }).figures_refs
            = (update_info_panel pw n).figures_refs from rfl,
          update_info_panel_refs]
        exact href
      · rw [update_active_marker_map_num, update_info_panel_items]
        exact hit
    · refine ⟨?_, ?_, ?_⟩
      · rw [show (update_active_marker { update_info_panel pw n with
            active_figure_num := some n }).figures_status
            = (update_info_panel pw n).figures_status from rfl,
          update_info_panel_status]
        exact hst
      · rw [show (update_active_marker { update_info_panel pw n with
            active_figure_num := some n }).figures_refs
            = (update_info_panel pw n).figures_refs from rfl,
          update_info_panel_refs]
        exact href
      · rw [update_active_marker_map_num, update_info_panel_items]
        exact hit

end ListPlot

theorem contains_append_self {l : List Nat} {n : Nat} : ((l ++ [n]).contains n) = true := by
  simp [List.contains_iff_exists_mem_beq]

namespace ListPlot

theorem foldl_preserves_closed (ops : List RegOp) :
    ∀ pw fn, closedRecordInv pw fn → closedRecordInv (ops.foldl applyOp pw) fn := by
  induction ops with
  | nil => intro pw fn h; exact h
  | cons op rest ih =>
    intro pw fn h
    rw [List.foldl_cons]
    exact ih _ _ (applyOp_preserves_closed op h)

end ListPlot

/-! ## Claim theorems: figure registry -/

/-- C7, counterexample: in the list-based manager, `add_figure` on a fresh
figure id falls off the end of the function, so Python returns `None`, which
is falsy — the first call does NOT return "added" (true) as claimed. -/
theorem addFigure_first_call_not_true_cex :
    ¬ ((ListPlot.add_figure ListPlot.PW.init { number := 1, axesCount := 0 }).2
        = some true) := by
  decide

/-- C7 (amended): `addFigure` called twice with the same fresh figure id
grows the registry by exactly one record, the second call being a rejected
no-op; in the tab-based variant the first call returns true, selects the new
tab and leaves the record open, and the second call returns false; in the
list-based variant the record is created with `open = true` and its list item
added, but both calls return `None` and the active selection is untouched. -/
theorem addFigure_idempotent_amended
    (tpw : TabPlot.PW) (n : Nat) (lpw : ListPlot.PW) (f : ListPlot.Fig)
    (hT : TabPlot.has_figure tpw n = false)
    (hTc : tpw.closed.contains n = false)
    (hL : lpw.figures_refs.lookup f.number = none)
    (hLs : lpw.figures_status.lookup f.number = none) :
    (TabPlot.add_figure tpw n).2 = true ∧
    (TabPlot.add_figure (TabPlot.add_figure tpw n).1 n).2 = false ∧
    (TabPlot.add_figure (TabPlot.add_figure tpw n).1 n).1.figures.length
      = tpw.figures.length + 1 ∧
    (TabPlot.add_figure tpw n).1.current = Int.ofNat tpw.tabs ∧
    ((TabPlot.add_figure tpw n).1.closed.contains n) = false ∧
    (ListPlot.add_figure lpw f).2 = none ∧
    ListPlot.add_figure (ListPlot.add_figure lpw f).1 f
      = ((ListPlot.add_figure lpw f).1, none) ∧
    (ListPlot.add_figure lpw f).1.figures_refs.length
      = lpw.figures_refs.length + 1 ∧
    (ListPlot.add_figure lpw f).1.figures_status.lookup f.number = some true ∧
    (ListPlot.add_figure lpw f).1.items.length = lpw.items.length + 1 ∧
    (ListPlot.add_figure lpw f).1.active_figure_num = lpw.active_figure_num := by
  have htab1 : TabPlot.add_figure tpw n
      = (⟨tpw.figures ++ [n], tpw.closed, tpw.tabs + 1, Int.ofNat tpw.tabs⟩, true) := by
    unfold TabPlot.add_figure
    rw [if_neg (by rw [hT]; exact Bool.false_ne_true)]
  have hlist1 : ListPlot.add_figure lpw f
      = (⟨lpw.figures_refs ++ [(f.number, f)],
          lpw.figures_status ++ [(f.number, true)],
          lpw.items ++ [⟨f.number, "Figure " ++ toString f.number, "green"⟩],
          lpw.active_figure_num, lpw.info_text, lpw.figure_windows⟩, none) := by
    unfold ListPlot.add_figure
    rw [if_neg (by rw [hL]; simp)]
  have htab2cond : TabPlot.has_figure (TabPlot.add_figure tpw n).1 n = true := by
    rw [htab1]
    show ((tpw.figures ++ [n]).contains n) = true
    exact contains_append_self
  have htab2 : ∀ pw1 : TabPlot.PW, TabPlot.has_figure pw1 n = true →
      TabPlot.add_figure pw1 n = (pw1, false) := by
    intro pw1 h1
    unfold TabPlot.add_figure
    rw [if_pos h1]
  have hl2cond : ((ListPlot.add_figure lpw f).1.figures_refs.lookup f.number).isSome
      = true := by
    rw [hlist1]
    show ((lpw.figures_refs ++ [(f.number, f)]).lookup f.number).isSome = true
    rw [lookup_append_of_none hL, lookup_cons, if_pos rfl]
    rfl
  have hlist2 : ∀ p1 : ListPlot.PW,
      (p1.figures_refs.lookup f.number).isSome = true →
      ListPlot.add_figure p1 f = (p1, none) := by
    intro p1 h1
    unfold ListPlot.add_figure
    rw [if_pos h1]
  refine ⟨?_, ?_, ?_, ?_, ?_, ?_, ?_, ?_, ?_, ?_, ?_⟩
  · rw [htab1]
  · rw [htab2 _ htab2cond]
  · rw [htab2 _ htab2cond, htab1]
    simp
  · rw [htab1]
  · rw [htab1]
    exact hTc
  · rw [hlist1]
  · exact hlist2 _ hl2cond
  · rw [hlist1]
    simp
  · rw [hlist1]
    show (lpw.figures_status ++ [(f.number, true)]).lookup f.number = some true
    rw [lookup_append_of_none hLs, lookup_cons, if_pos rfl]
  · rw [hlist1]
    simp
  · rw [hlist1]

/-- Witness for C7's amended theorem at the freshly constructed managers and
figure id 1. -/
theorem addFigure_idempotent_amended_witness :
    (TabPlot.has_figure TabPlot.PW.init 1 = false ∧
     TabPlot.PW.init.closed.contains 1 = false ∧
     ListPlot.PW.init.figures_refs.lookup 1 = none ∧
     ListPlot.PW.init.figures_status.lookup 1 = none) ∧
    ((TabPlot.add_figure TabPlot.PW.init 1).2 = true ∧
     (TabPlot.add_figure (TabPlot.add_figure TabPlot.PW.init 1).1 1).2 = false ∧
     (TabPlot.add_figure (TabPlot.add_figure TabPlot.PW.init 1).1 1).1.figures.length
       = TabPlot.PW.init.figures.length + 1 ∧
     (TabPlot.add_figure TabPlot.PW.init 1).1.current
       = Int.ofNat TabPlot.PW.init.tabs ∧
     ((TabPlot.add_figure TabPlot.PW.init 1).1.closed.contains 1) = false ∧
     (ListPlot.add_figure ListPlot.PW.init { number := 1, axesCount := 0 }).2 = none ∧
     ListPlot.add_figure
         (ListPlot.add_figure ListPlot.PW.init { number := 1, axesCount := 0 }).1
         { number := 1, axesCount := 0 }
       = ((ListPlot.add_figure ListPlot.PW.init { number := 1, axesCount := 0 }).1,
          none) ∧
     (ListPlot.add_figure ListPlot.PW.init
         { number := 1, axesCount := 0 }).1.figures_refs.length
       = ListPlot.PW.init.figures_refs.length + 1 ∧
     (ListPlot.add_figure ListPlot.PW.init
         { number := 1, axesCount := 0 }).1.figures_status.lookup 1 = some true ∧
     (ListPlot.add_figure ListPlot.PW.init
         { number := 1, axesCount := 0 }).1.items.length
       = ListPlot.PW.init.items.length + 1 ∧
     (ListPlot.add_figure ListPlot.PW.init
         { number := 1, axesCount := 0 }).1.active_figure_num
       = ListPlot.PW.init.active_figure_num) :=
  ⟨⟨by decide, by decide, by decide, by decide⟩,
   addFigure_idempotent_amended TabPlot.PW.init 1 ListPlot.PW.init
     { number := 1, axesCount := 0 } (by decide) (by decide) (by decide) (by decide)⟩

/-- C8, counterexample: figure 1 is added and selected (the active-figure
pointer becomes 1), then marked closed; selecting it again CHANGES the
active-figure pointer (it is cleared to none), contradicting the claim that
the pointer is left unchanged. -/
theorem selectClosed_pointer_changes_cex :
    (ListPlot.on_figure_selected scenClosed1 1 scenSel1.plt).pw.active_figure_num
      ≠ scenClosed1.active_figure_num ∧
    scenClosed1.active_figure_num = some 1 := by
  decide

/-- C8 (amended): after `markClosed(id)`, selecting `id` clears the
active-figure pointer to none (so it is unchanged only when it was already
none), performs no plotting-engine figure-switch call, emits no
`figure_switched` notification, and leaves the figure registry (references,
statuses, detail windows) untouched — only the info panel and the list-item
labels are refreshed.  The tab-based variant's tab-change handler likewise
emits no notification for a closed figure. -/
theorem selectClosed_behavior
    (pw : ListPlot.PW) (plt : ListPlot.PltState) (n : Nat)
    (tpw : TabPlot.PW) (j : Nat)
    (hj : j < tpw.figures.length)
    (hn : tpw.figures.getD j 0 = n) :
    (ListPlot.on_figure_selected (ListPlot.mark_figure_closed pw n) n
        plt).pw.active_figure_num = none ∧
    (ListPlot.on_figure_selected (ListPlot.mark_figure_closed pw n) n
        plt).engine_calls = [] ∧
    (ListPlot.on_figure_selected (ListPlot.mark_figure_closed pw n) n
        plt).emitted = none ∧
    (ListPlot.on_figure_selected (ListPlot.mark_figure_closed pw n) n plt).plt
      = plt ∧
    (ListPlot.on_figure_selected (ListPlot.mark_figure_closed pw n) n
        plt).pw.figures_refs = (ListPlot.mark_figure_closed pw n).figures_refs ∧
    (ListPlot.on_figure_selected (ListPlot.mark_figure_closed pw n) n
        plt).pw.figures_status
      = (ListPlot.mark_figure_closed pw n).figures_status ∧
    (ListPlot.on_figure_selected (ListPlot.mark_figure_closed pw n) n
        plt).pw.figure_windows
      = (ListPlot.mark_figure_closed pw n).figure_windows ∧
    TabPlot.on_tab_changed (TabPlot.mark_figure_closed tpw n) (Int.ofNat j)
      = none := by
  have hcond : (!(((ListPlot.update_info_panel (ListPlot.mark_figure_closed pw n)
      n).figures_status.lookup n).getD false)) = true := by
    rw [ListPlot.update_info_panel_status, ListPlot.status_after_close]
    rfl
  have hsel : ListPlot.on_figure_selected (ListPlot.mark_figure_closed pw n) n plt
      = ⟨ListPlot.update_active_marker
           { ListPlot.update_info_panel (ListPlot.mark_figure_closed pw n) n with
             active_figure_num := none },
         plt, [], none⟩ := by
    unfold ListPlot.on_figure_selected
    dsimp only
    rw [if_pos hcond]
  have htab : TabPlot.on_tab_changed (TabPlot.mark_figure_closed tpw n)
      (Int.ofNat j) = none := by
    unfold TabPlot.on_tab_changed
    dsimp only
    rw [TabPlot.figures_mark]
    rw [if_pos ⟨Int.ofNat_nonneg j, Int.ofNat_lt.mpr hj⟩]
    rw [show (Int.ofNat j).toNat = j from rfl, hn]
    rw [if_pos (TabPlot.contains_mark tpw n)]
  refine ⟨?_, ?_, ?_, ?_, ?_, ?_, ?_, htab⟩
  · rw [hsel]
    rfl
  · rw [hsel]
  · rw [hsel]
  · rw [hsel]
  · rw [hsel]
    show (ListPlot.update_info_panel (ListPlot.mark_figure_closed pw n)
        n).figures_refs = (ListPlot.mark_figure_closed pw n).figures_refs
    exact ListPlot.update_info_panel_refs _ _
  · rw [hsel]
    show (ListPlot.update_info_panel (ListPlot.mark_figure_closed pw n)
        n).figures_status = (ListPlot.mark_figure_closed pw n).figures_status
    exact ListPlot.update_info_panel_status _ _
  · rw [hsel]
    show (ListPlot.update_info_panel (ListPlot.mark_figure_closed pw n)
        n).figure_windows = (ListPlot.mark_figure_closed pw n).figure_windows
    exact ListPlot.update_info_panel_windows _ _

/-- Witness for C8's amended theorem at the concrete selected-then-closed
figure 1 and the tab viewer holding figure 1 at tab 0. -/
theorem selectClosed_behavior_witness :
    (0 < (TabPlot.add_figure TabPlot.PW.init 1).1.figures.length ∧
     (TabPlot.add_figure TabPlot.PW.init 1).1.figures.getD 0 0 = 1) ∧
    ((ListPlot.on_figure_selected (ListPlot.mark_figure_closed scenSel1.pw 1) 1
        scenSel1.plt).pw.active_figure_num = none ∧
     (ListPlot.on_figure_selected (ListPlot.mark_figure_closed scenSel1.pw 1) 1
        scenSel1.plt).engine_calls = [] ∧
     (ListPlot.on_figure_selected (ListPlot.mark_figure_closed scenSel1.pw 1) 1
        scenSel1.plt).emitted = none ∧
     (ListPlot.on_figure_selected (ListPlot.mark_figure_closed scenSel1.pw 1) 1
        scenSel1.plt).plt = scenSel1.plt ∧
     (ListPlot.on_figure_selected (ListPlot.mark_figure_closed scenSel1.pw 1) 1
        scenSel1.plt).pw.figures_refs
       = (ListPlot.mark_figure_closed scenSel1.pw 1).figures_refs ∧
     (ListPlot.on_figure_selected (ListPlot.mark_figure_closed scenSel1.pw 1) 1
        scenSel1.plt).pw.figures_status
       = (ListPlot.mark_figure_closed scenSel1.pw 1).figures_status ∧
     (ListPlot.on_figure_selected (ListPlot.mark_figure_closed scenSel1.pw 1) 1
        scenSel1.plt).pw.figure_windows
       = (ListPlot.mark_figure_closed scenSel1.pw 1).figure_windows ∧
     TabPlot.on_tab_changed
        (TabPlot.mark_figure_closed (TabPlot.add_figure TabPlot.PW.init 1).1 1)
        (Int.ofNat 0) = none) :=
  ⟨⟨by decide, by decide⟩,
   selectClosed_behavior scenSel1.pw scenSel1.plt 1
     (TabPlot.add_figure TabPlot.PW.init 1).1 0 (by decide) (by decide)⟩

/-- C9: closed is absorbing in the list-based registry — once a record's
status reads `False`, no sequence of `addFigure`, `refreshFigure`,
`selectFigure`, `markClosed` operations ever flips it back to `True`, and the
record (its handle reference and its list entry) is never removed. -/
theorem closed_figure_absorbing (ops : List ListPlot.RegOp) (pw : ListPlot.PW)
    (fn : Nat)
    (hst : pw.figures_status.lookup fn = some false)
    (href : (pw.figures_refs.lookup fn).isSome = true)
    (hit : fn ∈ pw.items.map ListPlot.Item.num) :
    (ops.foldl ListPlot.applyOp pw).figures_status.lookup fn = some false ∧
    ((ops.foldl ListPlot.applyOp pw).figures_refs.lookup fn).isSome = true ∧
    fn ∈ (ops.foldl ListPlot.applyOp pw).items.map ListPlot.Item.num :=
  ListPlot.foldl_preserves_closed ops pw fn ⟨hst, href, hit⟩

/-- Witness for C9 at a closed figure 1 hit by a re-add, a refresh, two
selections, a second close and an unrelated add. -/
theorem closed_figure_absorbing_witness :
    (scenLifeStart.figures_status.lookup 1 = some false ∧
     (scenLifeStart.figures_refs.lookup 1).isSome = true ∧
     1 ∈ scenLifeStart.items.map ListPlot.Item.num) ∧
    ((scenLifeOps.foldl ListPlot.applyOp scenLifeStart).figures_status.lookup 1
       = some false ∧
     ((scenLifeOps.foldl ListPlot.applyOp
         scenLifeStart).figures_refs.lookup 1).isSome = true ∧
     1 ∈ (scenLifeOps.foldl ListPlot.applyOp
         scenLifeStart).items.map ListPlot.Item.num) :=
  ⟨⟨by decide, by decide, by decide⟩,
   closed_figure_absorbing scenLifeOps scenLifeStart 1
     (by decide) (by decide) (by decide)⟩

/-- Did the call return normally (no uncaught Python exception)? -/
def runOk {e a : Type} : Except e a → Bool
  | .ok _ => true
  | .error _ => false

/-- The state `render_inline_plot` would succeed with (its carried state when
it raises; unused on the paths where it cannot raise). -/
def renderOkState (B : ConsoleState) : ConsoleState :=
  match Console.render_inline_plot B with
  | .ok s => s
  | .error e => e.2

/-! ## Supporting lemmas: transcript preservation under buffer edits -/

theorem take_append_of_le {α : Type} {p l : Nat} {buf rest : List α}
    (hpl : p ≤ l) (hpb : p ≤ buf.length) :
    (buf.take l ++ rest).take p = buf.take p := by
  have hlen : p ≤ (buf.take l).length := by
    rw [List.length_take]; omega
  rw [List.take_append_eq_append_take, Nat.sub_eq_zero_of_le hlen,
    List.take_zero, List.append_nil, List.take_take, Nat.min_eq_left hpl]

theorem take_insertAtLineIdx {p line idx : Nat} {buf : List String} {s : String}
    (hpl : p ≤ line) (hpb : p ≤ buf.length) :
    (insertAtLineIdx buf s line idx).take p = buf.take p := by
  unfold insertAtLineIdx
  rw [List.append_assoc]
  exact take_append_of_le hpl hpb

theorem take_removeRange {p l1 i1 l2 i2 : Nat} {buf : List String}
    (hpl : p ≤ l1) (hpb : p ≤ buf.length) :
    (removeRange buf l1 i1 l2 i2).take p = buf.take p := by
  unfold removeRange
  rw [List.append_assoc]
  exact take_append_of_le hpl hpb

theorem le_removeRange_length {p l1 i1 l2 i2 : Nat} {buf : List String}
    (hpl : p ≤ l1) (hpb : p ≤ buf.length) :
    p ≤ (removeRange buf l1 i1 l2 i2).length := by
  unfold removeRange
  simp only [List.length_append, List.length_take, List.length_cons]
  omega

theorem splitNlAux_no_nl :
    ∀ (l acc : List Char), (∀ c ∈ l, ¬ c = '\n') →
      splitNlAux l acc = [acc.reverse ++ l] := by
  intro l
  induction l with
  | nil => intro acc _; simp [splitNlAux]
  | cons c rest ih =>
    intro acc h
    have hc : ¬ c = '\n' := h c (List.mem_cons_self c rest)
    unfold splitNlAux
    rw [if_neg hc, ih (c :: acc) (fun d hd => h d (List.mem_cons_of_mem c hd))]
    simp

theorem sciSplit_no_nl (s : String) (h : ∀ c ∈ s.data, ¬ c = '\n') :
    sciSplit s = [s] := by
  unfold sciSplit
  rw [splitNlAux_no_nl s.data [] h]
  rfl

theorem printable_no_nl {s : String} (h : pyIsPrintable s = true) :
    ∀ c ∈ s.data, ¬ c = '\n' := by
  intro c hc hnl
  have := (List.all_eq_true.mp h) c hc
  subst hnl
  simp [pyCharPrintable] at this

theorem strTake_length (s : String) : strTake s s.length = s := by
  unfold strTake
  rw [show s.length = s.data.length from rfl, List.take_length]

theorem strDrop_length (s : String) : strDrop s s.length = "" := by
  unfold strDrop
  rw [show s.length = s.data.length from rfl, List.drop_length]

theorem str_append_empty (s : String) : s ++ "" = s := by
  cases s with
  | mk data =>
    show String.mk (data ++ []) = String.mk data
    rw [List.append_nil]

theorem str_data_append (a b : String) : (a ++ b).data = a.data ++ b.data := rfl

/-! ## Claim theorems: the console -/

/-- C1: submitting when the extracted input strips to empty appends nothing
to History and never calls the engine — but instead of redrawing a fresh
prompt, both console variants evaluate `"\n" + self.prompt_line` (a string
plus an integer), raising `TypeError` before any state mutation: the error
carries the console state unchanged. -/
theorem emptySubmit_raises (eng engE : Engine) (st stE : ConsoleState)
    (h : Console.currentCode st = "")
    (hE : Console.currentCode stE = "") :
    Console.run_current_input eng st = .error (.typeError, st) ∧
    Console.run_current_inputE engE stE = .error (.typeError, stE) := by
  constructor
  · unfold Console.run_current_input
    dsimp only
    rw [if_pos h]
  · unfold Console.run_current_inputE
    dsimp only
    rw [if_pos hE]

/-- Witness for C1 at a console whose input region is whitespace only. -/
theorem emptySubmit_raises_witness :
    (Console.currentCode blankInputConsole = "" ∧
     Console.currentCode blankInputConsole = "") ∧
    (Console.run_current_input stubEngine blankInputConsole
       = .error (.typeError, blankInputConsole) ∧
     Console.run_current_inputE stubEngine blankInputConsole
       = .error (.typeError, blankInputConsole)) :=
  ⟨⟨by decide, by decide⟩,
   emptySubmit_raises stubEngine stubEngine blankInputConsole blankInputConsole
     (by decide) (by decide)⟩

/-- C4: the history round trip.  From a fresh idle console, submit `a=1`
then `b=2` (the buffer's input region is the prompt string `>>> ` followed
by the composing text).  Two navigate-back presses compose `a=1`; one
navigate-forward then composes `b=2`; one more restores the pre-navigation
pending input (the bare prompt, i.e. empty composing text) verbatim and
returns the history cursor to idle. -/
theorem history_roundtrip :
    (pressKeys stubEngine demoConsole keysAB).map
        (fun s => (Console.get_current_input s, s.in_history_mode))
      = .ok (">>> ", false) ∧
    (pressKeys stubEngine demoConsole (keysAB ++ [upEv, upEv])).map
        Console.get_current_input = .ok ">>> a=1" ∧
    (pressKeys stubEngine demoConsole (keysAB ++ [upEv, upEv, downEv])).map
        Console.get_current_input = .ok ">>> b=2" ∧
    (pressKeys stubEngine demoConsole
        (keysAB ++ [upEv, upEv, downEv, downEv])).map
        (fun s => (Console.get_current_input s, s.in_history_mode,
          s.history_index))
      = .ok (">>> ", false, 2) := by
  refine ⟨by decide, by decide, by decide, by decide⟩

/-- C6, counterexample: with history `a=1`, `b=2` and empty pending input,
two navigate-back presses display the oldest match `a=1`; the claimed
modulo wraparound would make a third press display the newest `b=2` again,
but the code clamps the index at zero and redisplays `a=1`. -/
theorem historyBack_clamps_cex :
    (pressKeys stubEngine demoConsole (keysAB ++ [upEv, upEv])).map
        Console.get_current_input = .ok ">>> a=1" ∧
    (pressKeys stubEngine demoConsole (keysAB ++ [upEv, upEv, upEv])).map
        Console.get_current_input = .ok ">>> a=1" ∧
    ¬ ((pressKeys stubEngine demoConsole (keysAB ++ [upEv, upEv, upEv])).map
        Console.get_current_input = .ok ">>> b=2") := by
  refine ⟨by decide, by decide, by decide⟩

theorem upIter_succ (k : Nat) (st : ConsoleState) :
    upIter (k + 1) st = Console.historyBack (upIter k st) := by
  induction k generalizing st with
  | zero => rfl
  | succ n ih =>
    show upIter (n + 1) (Console.historyBack st) = _
    rw [ih (Console.historyBack st)]
    rfl

/-- C6 (amended): in history mode with a non-empty match list, the Up key
hands off to the back-navigation handler, which decrements the match index
with a floor at zero (`max(0, i - 1)`) and displays the match at
`index % len(matches)`; in particular once the index has reached zero
(displaying the oldest match) every further navigate-back press keeps
displaying the oldest match — clamping, not wrapping around to the newest. -/
theorem historyBack_decrement_clamps (eng : Engine) (st : ConsoleState)
    (hmode : st.in_history_mode = true)
    (hsel : st.selection = none)
    (hne : (Console.matchesOf st).isEmpty = false) :
    Console.keyPressEvent eng upEv st = .ok (Console.historyBack st) ∧
    Console.historyBack st
      = Console.replace_current_input
          { st with history_index := st.history_index - 1 }
          ((Console.matchesOf st).getD
            ((st.history_index - 1) % (Console.matchesOf st).length) "") ∧
    (st.history_index = 0 →
      Console.historyBack st
        = Console.replace_current_input { st with history_index := 0 }
            ((Console.matchesOf st).getD 0 "")) := by
  have hsel' : Console.selectionAbovePrompt st = false := by
    unfold Console.selectionAbovePrompt
    rw [hsel]
  have h2 : Console.historyBack st
      = Console.replace_current_input
          { st with history_index := st.history_index - 1 }
          ((Console.matchesOf st).getD
            ((st.history_index - 1) % (Console.matchesOf st).length) "") := by
    unfold Console.historyBack
    rw [hmode]
    simp only [Bool.not_true, Bool.false_eq_true, if_false, hne]
    rw [hmode]
  refine ⟨?_, h2, ?_⟩
  · have c2 : ¬ (st.cursor.1 < st.prompt_line ∧ pyIsPrintable upEv.text = true ∧
        0 < upEv.text.length ∧ Mods.isEmpty upEv.mods = true) :=
      fun hc => absurd hc.2.2.1 (by decide)
    have c3 : ¬ (Console.selectionAbovePrompt st = true) := by
      rw [hsel']
      decide
    have c4 : ¬ ((upEv.key = Key.backspace ∨ upEv.key = Key.delete) ∧
        (st.cursor.1 < st.prompt_line ∨
          (st.cursor.1 = st.prompt_line ∧
            st.cursor.2 ≤ st.prompt_str.length))) := by
      intro hc
      rcases hc.1 with h | h <;> exact absurd h (by decide)
    unfold Console.keyPressEvent
    rw [if_neg (by decide), if_neg c2, if_neg c3, if_neg c4, if_neg (by decide),
      if_pos (by decide)]
  · intro h0
    rw [h2, h0]
    simp

/-- Witness for C6's amended theorem at the clamped navigation state. -/
theorem historyBack_decrement_clamps_witness :
    (c6w.in_history_mode = true ∧ c6w.selection = none ∧
     (Console.matchesOf c6w).isEmpty = false) ∧
    (Console.keyPressEvent stubEngine upEv c6w
       = .ok (Console.historyBack c6w) ∧
     Console.historyBack c6w
       = Console.replace_current_input
           { c6w with history_index := c6w.history_index - 1 }
           ((Console.matchesOf c6w).getD
             ((c6w.history_index - 1) % (Console.matchesOf c6w).length) "") ∧
     (c6w.history_index = 0 →
       Console.historyBack c6w
         = Console.replace_current_input { c6w with history_index := 0 }
             ((Console.matchesOf c6w).getD 0 ""))) :=
  ⟨⟨by decide, by decide, by decide⟩,
   historyBack_decrement_clamps stubEngine c6w (by decide) (by decide)
     (by decide)⟩

/-- C5: the prefix filter.  After submitting `alpha=1`, `beta=2`, `alpha=3`
and composing `al` (history entries and pending input both carry the `>>> `
prompt prefix the widget stores in its buffer), navigating back computes the
match list as exactly the history entries starting with the trimmed pending
input, in submission order, and any number of navigate-back presses only
ever composes `alpha=1` or `alpha=3` — never `beta=2`. -/
theorem prefix_filter_navigation :
    c5base.history = c5hist ∧
    Console.get_current_input c5base = ">>> al" ∧
    pressKeys stubEngine demoConsole (keysAlpha ++ [upEv])
      = .ok (Console.historyBack c5base) ∧
    Console.matchesOf (Console.historyBack c5base) = c5matches ∧
    c5matches = c5hist.filter (fun h => pyStartsWith h ">>> al") ∧
    (∀ k : Nat,
      Console.get_current_input (upIter (k + 1) c5base) ∈ c5matches ∧
      Console.get_current_input (upIter (k + 1) c5base) ≠ ">>> beta=2") := by
  have e1 : Console.historyBack c5base = c5State 2 ">>> alpha=1" := by decide
  have e2 : Console.historyBack (c5State 2 ">>> alpha=1")
      = c5State 1 ">>> alpha=3" := by decide
  have e3 : Console.historyBack (c5State 1 ">>> alpha=3")
      = c5State 0 ">>> alpha=1" := by decide
  have e4 : Console.historyBack (c5State 0 ">>> alpha=1")
      = c5State 0 ">>> alpha=1" := by decide
  have key : ∀ k : Nat,
      upIter (k + 1) c5base = c5State 2 ">>> alpha=1" ∨
      upIter (k + 1) c5base = c5State 1 ">>> alpha=3" ∨
      upIter (k + 1) c5base = c5State 0 ">>> alpha=1" := by
    intro k
    induction k with
    | zero =>
      left
      rw [upIter_succ 0 c5base]
      exact e1
    | succ n ih =>
      rw [upIter_succ (n + 1) c5base]
      rcases ih with h | h | h
      · rw [h, e2]
        right; left; rfl
      · rw [h, e3]
        right; right; rfl
      · rw [h, e4]
        right; right; rfl
  refine ⟨by decide, by decide, by decide, by decide, by decide, ?_⟩
  intro k
  rcases key k with h | h | h <;> rw [h] <;> exact ⟨by decide, by decide⟩

/-- C10: a printable character typed while the cursor sits above the prompt
line is redirected to the end of the buffer only when no modifier is held
(the transcript above the prompt is untouched either way); with any modifier
held — Shift included — the same character is silently discarded: the state
is returned unchanged, the character neither inserted at the cursor nor
appended at the end. -/
theorem abovePrompt_modifier_gates (eng : Engine) (ev : KeyEvent)
    (st : ConsoleState)
    (hk : ev.key = Key.charKey)
    (hprint : pyIsPrintable ev.text = true)
    (hlen : 0 < ev.text.length)
    (habove : st.cursor.1 < st.prompt_line)
    (hpb : st.prompt_line < st.buffer.length)
    (hnl : ∀ line ∈ st.buffer, ∀ c ∈ line.data, ¬ c = '\n') :
    (Mods.isEmpty ev.mods = true →
      ∃ st2, Console.keyPressEvent eng ev st = .ok st2 ∧
        st2.buffer = st.buffer.take (st.buffer.length - 1)
          ++ [st.buffer.getD (st.buffer.length - 1) "" ++ ev.text] ∧
        st2.buffer.take st.prompt_line = st.buffer.take st.prompt_line) ∧
    (Mods.isEmpty ev.mods = false →
      Console.keyPressEvent eng ev st = .ok st) := by
  have c1 : ¬ (ev.key = Key.pageUp ∨ ev.key = Key.pageDown) := by
    rw [hk]
    decide
  have hn : 0 < st.buffer.length := Nat.lt_of_le_of_lt (Nat.zero_le _) hpb
  constructor
  · intro hmods
    unfold Console.keyPressEvent
    rw [if_neg c1, if_pos ⟨habove, hprint, hlen, hmods⟩]
    have hlast : st.buffer.getD (st.buffer.length - 1) "" ∈ st.buffer := by
      have hlt : st.buffer.length - 1 < st.buffer.length := by omega
      rw [List.getD_eq_getElem st.buffer "" hlt]
      exact List.getElem_mem hlt
    have hins : insertAtLineIdx st.buffer ev.text (st.buffer.length - 1)
        ((st.buffer.getD (st.buffer.length - 1) "").length)
        = st.buffer.take (st.buffer.length - 1)
          ++ [st.buffer.getD (st.buffer.length - 1) "" ++ ev.text] := by
      unfold insertAtLineIdx
      dsimp only
      rw [strTake_length, strDrop_length, str_append_empty]
      rw [sciSplit_no_nl _ ?_]
      · rw [show st.buffer.length - 1 + 1 = st.buffer.length from by omega,
          List.drop_length, List.append_nil]
      · intro c hc
        rw [str_data_append] at hc
        rcases List.mem_append.mp hc with h | h
        · exact hnl _ hlast c h
        · exact printable_no_nl hprint c h
    refine ⟨_, rfl, ?_, ?_⟩
    · show (Console.insertAtCursor
        (Console.moveCursorToEnd { st with selection := none }) ev.text).buffer
          = _
      show insertAtLineIdx st.buffer ev.text (st.buffer.length - 1)
        ((st.buffer.getD (st.buffer.length - 1) "").length) = _
      exact hins
    · show (insertAtLineIdx st.buffer ev.text (st.buffer.length - 1)
        ((st.buffer.getD (st.buffer.length - 1) "").length)).take st.prompt_line
          = _
      rw [hins]
      exact take_append_of_le (by omega) (by omega)
  · intro hmods
    have c2 : ¬ (st.cursor.1 < st.prompt_line ∧ pyIsPrintable ev.text = true ∧
        0 < ev.text.length ∧ Mods.isEmpty ev.mods = true) := by
      intro hc
      rw [hmods] at hc
      exact absurd hc.2.2.2 (by decide)
    unfold Console.keyPressEvent
    rw [if_neg c1, if_neg c2]
    by_cases hs : Console.selectionAbovePrompt st = true
    · rw [if_pos hs]
    · rw [if_neg hs]
      have c4 : ¬ ((ev.key = Key.backspace ∨ ev.key = Key.delete) ∧
          (st.cursor.1 < st.prompt_line ∨
            (st.cursor.1 = st.prompt_line ∧
              st.cursor.2 ≤ st.prompt_str.length))) := by
        intro hc
        rcases hc.1 with h | h <;> rw [hk] at h <;> exact absurd h (by decide)
      have c5 : ¬ (ev.key = Key.retKey) := by
        rw [hk]
        decide
      have c6 : ¬ (ev.key = Key.upKey) := by
        rw [hk]
        decide
      have c7 : ¬ (ev.key = Key.downKey) := by
        rw [hk]
        decide
      rw [if_neg c4, if_neg c5, if_neg c6, if_neg c7, if_pos habove]

/-- Witness for C10 at the transcript-clicked console, once with a plain
`z` keystroke (redirected to the end) and once with Shift+`A` (discarded). -/
theorem abovePrompt_modifier_gates_witness :
    (((charEv "z").key = Key.charKey ∧ pyIsPrintable (charEv "z").text = true ∧
      0 < (charEv "z").text.length ∧ c10st.cursor.1 < c10st.prompt_line ∧
      c10st.prompt_line < c10st.buffer.length ∧
      (∀ line ∈ c10st.buffer, ∀ c ∈ line.data, ¬ c = '\n')) ∧
     ((Mods.isEmpty (charEv "z").mods = true →
        ∃ st2, Console.keyPressEvent stubEngine (charEv "z") c10st = .ok st2 ∧
          st2.buffer = c10st.buffer.take (c10st.buffer.length - 1)
            ++ [c10st.buffer.getD (c10st.buffer.length - 1) ""
                ++ (charEv "z").text] ∧
          st2.buffer.take c10st.prompt_line
            = c10st.buffer.take c10st.prompt_line) ∧
      (Mods.isEmpty (charEv "z").mods = false →
        Console.keyPressEvent stubEngine (charEv "z") c10st = .ok c10st))) ∧
    ((Mods.isEmpty (shiftCharEv "A").mods = true →
        ∃ st2, Console.keyPressEvent stubEngine (shiftCharEv "A") c10st
            = .ok st2 ∧
          st2.buffer = c10st.buffer.take (c10st.buffer.length - 1)
            ++ [c10st.buffer.getD (c10st.buffer.length - 1) ""
                ++ (shiftCharEv "A").text] ∧
          st2.buffer.take c10st.prompt_line
            = c10st.buffer.take c10st.prompt_line) ∧
      (Mods.isEmpty (shiftCharEv "A").mods = false →
        Console.keyPressEvent stubEngine (shiftCharEv "A") c10st
          = .ok c10st)) :=
  ⟨⟨⟨by decide, by decide, by decide, by decide, by decide, by decide⟩,
    abovePrompt_modifier_gates stubEngine (charEv "z") c10st (by decide)
      (by decide) (by decide) (by decide) (by decide) (by decide)⟩,
   abovePrompt_modifier_gates stubEngine (shiftCharEv "A") c10st (by decide)
     (by decide) (by decide) (by decide) (by decide) (by decide)⟩

theorem take_qsciDefaultKey (ev : KeyEvent) (st : ConsoleState) {p : Nat}
    (hk : ev.key = Key.charKey ∨ ev.key = Key.backspace ∨ ev.key = Key.delete)
    (hpb : p ≤ st.buffer.length)
    (hcur : p ≤ st.cursor.1)
    (hsel : ∀ l1 i1 l2 i2, st.selection = some (l1, i1, l2, i2) → p ≤ l1)
    (hbs : ev.key = Key.backspace → st.cursor.2 = 0 → p < st.cursor.1) :
    (Console.qsciDefaultKey ev st).buffer.take p = st.buffer.take p := by
  have hselcase : ∀ l1 i1 l2 i2, st.selection = some (l1, i1, l2, i2) →
      (Console.removeSelection st l1 i1 l2 i2).buffer.take p
        = st.buffer.take p := by
    intro l1 i1 l2 i2 hsome
    exact take_removeRange (hsel _ _ _ _ hsome) hpb
  have hselinsert : ∀ l1 i1 l2 i2 s, st.selection = some (l1, i1, l2, i2) →
      (Console.insertAtCursor (Console.removeSelection st l1 i1 l2 i2)
        s).buffer.take p = st.buffer.take p := by
    intro l1 i1 l2 i2 s hsome
    have h1 := hsel _ _ _ _ hsome
    have h2 : p ≤ (removeRange st.buffer l1 i1 l2 i2).length :=
      le_removeRange_length h1 hpb
    calc (Console.insertAtCursor (Console.removeSelection st l1 i1 l2 i2)
          s).buffer.take p
        = (insertAtLineIdx (removeRange st.buffer l1 i1 l2 i2) s l1 i1).take p :=
          rfl
      _ = (removeRange st.buffer l1 i1 l2 i2).take p :=
          take_insertAtLineIdx h1 h2
      _ = st.buffer.take p := take_removeRange h1 hpb
  rcases hk with hk | hk | hk
  · -- character insertion
    unfold Console.qsciDefaultKey
    rw [hk]
    show (Console.editInsert st ev.text).buffer.take p = st.buffer.take p
    unfold Console.editInsert
    cases hs : st.selection with
    | some sel =>
      obtain ⟨l1, i1, l2, i2⟩ := sel
      exact hselinsert l1 i1 l2 i2 ev.text hs
    | none =>
      exact take_insertAtLineIdx hcur hpb
  · -- backspace
    unfold Console.qsciDefaultKey
    rw [hk]
    show (match st.selection with
      | some (l1, i1, l2, i2) => Console.removeSelection st l1 i1 l2 i2
      | none =>
        if 0 < st.cursor.2 then
          let b := removeRange st.buffer st.cursor.1 (st.cursor.2 - 1)
            st.cursor.1 st.cursor.2
          { st with buffer := b, cursor := (st.cursor.1, st.cursor.2 - 1) }
        else if 0 < st.cursor.1 then
          let plen := (st.buffer.getD (st.cursor.1 - 1) "").length
          let b := removeRange st.buffer (st.cursor.1 - 1) plen st.cursor.1 0
          { st with buffer := b, cursor := (st.cursor.1 - 1, plen) }
        else st).buffer.take p = st.buffer.take p
    cases hs : st.selection with
    | some sel =>
      obtain ⟨l1, i1, l2, i2⟩ := sel
      exact hselcase l1 i1 l2 i2 hs
    | none =>
      by_cases hcz : 0 < st.cursor.2
      · rw [if_pos hcz]
        exact take_removeRange hcur hpb
      · rw [if_neg hcz]
        have hc2 : st.cursor.2 = 0 := by omega
        by_cases hcl : 0 < st.cursor.1
        · rw [if_pos hcl]
          have hlt := hbs hk hc2
          exact take_removeRange (by omega) hpb
        · rw [if_neg hcl]
  · -- delete
    unfold Console.qsciDefaultKey
    rw [hk]
    show (match st.selection with
      | some (l1, i1, l2, i2) => Console.removeSelection st l1 i1 l2 i2
      | none =>
        if st.cursor.2 < (st.buffer.getD st.cursor.1 "").length then
          let b := removeRange st.buffer st.cursor.1 st.cursor.2 st.cursor.1
            (st.cursor.2 + 1)
          { st with buffer := b }
        else if st.cursor.1 + 1 < st.buffer.length then
          let b := removeRange st.buffer st.cursor.1 st.cursor.2
            (st.cursor.1 + 1) 0
          { st with buffer := b }
        else st).buffer.take p = st.buffer.take p
    cases hs : st.selection with
    | some sel =>
      obtain ⟨l1, i1, l2, i2⟩ := sel
      exact hselcase l1 i1 l2 i2 hs
    | none =>
      by_cases hcz : st.cursor.2 < (st.buffer.getD st.cursor.1 "").length
      · rw [if_pos hcz]
        exact take_removeRange hcur hpb
      · rw [if_neg hcz]
        by_cases hcl : st.cursor.1 + 1 < st.buffer.length
        · rw [if_pos hcl]
          exact take_removeRange hcur hpb
        · rw [if_neg hcl]

/-- C2: the edit guard.  For any character-insert, Backspace or Delete key
event — whatever the modifiers, cursor placement or (normalized) selection —
both console variants' key handlers leave every buffer line strictly above
the prompt line unchanged: guarded positions are rejected outright, a
printable character typed above the prompt is redirected to the end of the
buffer (dockable variant), and edits that do go through only touch lines at
or below the prompt line. -/
theorem editGuard_above_prompt (eng : Engine) (ev : KeyEvent)
    (st : ConsoleState)
    (hk : ev.key = Key.charKey ∨ ev.key = Key.backspace ∨ ev.key = Key.delete)
    (hpb : st.prompt_line < st.buffer.length) :
    (Console.keyPressEvent eng ev st).map
        (fun s => s.buffer.take st.prompt_line)
      = .ok (st.buffer.take st.prompt_line) ∧
    (Console.keyPressEventE eng ev st).map
        (fun s => s.buffer.take st.prompt_line)
      = .ok (st.buffer.take st.prompt_line) := by
  have c5 : ¬ (ev.key = Key.retKey) := by
    rcases hk with h | h | h <;> rw [h] <;> decide
  have c6 : ¬ (ev.key = Key.upKey) := by
    rcases hk with h | h | h <;> rw [h] <;> decide
  have c7 : ¬ (ev.key = Key.downKey) := by
    rcases hk with h | h | h <;> rw [h] <;> decide
  have htail : ∀ hc3 : ¬ (Console.selectionAbovePrompt st = true),
      ∀ hc4 : ¬ ((ev.key = Key.backspace ∨ ev.key = Key.delete) ∧
        (st.cursor.1 < st.prompt_line ∨
          (st.cursor.1 = st.prompt_line ∧
            st.cursor.2 ≤ st.prompt_str.length))),
      ∀ hc8 : ¬ (st.cursor.1 < st.prompt_line),
      (Console.qsciDefaultKey ev st).buffer.take st.prompt_line
        = st.buffer.take st.prompt_line := by
    intro hc3 hc4 hc8
    have hsel : ∀ l1 i1 l2 i2, st.selection = some (l1, i1, l2, i2) →
        st.prompt_line ≤ l1 := by
      intro l1 i1 l2 i2 hsome
      by_contra hlt
      apply hc3
      unfold Console.selectionAbovePrompt
      rw [hsome]
      simp only [decide_eq_true_eq]
      omega
    have hbs : ev.key = Key.backspace → st.cursor.2 = 0 →
        st.prompt_line < st.cursor.1 := by
      intro hb hcz
      have hbad : ¬ (st.cursor.1 < st.prompt_line ∨
          (st.cursor.1 = st.prompt_line ∧
            st.cursor.2 ≤ st.prompt_str.length)) :=
        fun hbad => hc4 ⟨Or.inl hb, hbad⟩
      push_neg at hbad
      rcases Nat.lt_or_ge st.prompt_line st.cursor.1 with h | h
      · exact h
      · exfalso
        have heq : st.cursor.1 = st.prompt_line := by omega
        have := hbad.2 heq
        omega
    exact take_qsciDefaultKey ev st hk (Nat.le_of_lt hpb)
      (Nat.le_of_not_lt hc8) hsel hbs
  constructor
  · have c1 : ¬ (ev.key = Key.pageUp ∨ ev.key = Key.pageDown) := by
      rcases hk with h | h | h <;> rw [h] <;> decide
    unfold Console.keyPressEvent
    rw [if_neg c1]
    by_cases c2 : st.cursor.1 < st.prompt_line ∧ pyIsPrintable ev.text = true ∧
        0 < ev.text.length ∧ Mods.isEmpty ev.mods = true
    · rw [if_pos c2]
      show Except.ok ((insertAtLineIdx st.buffer ev.text
        (st.buffer.length - 1)
        ((st.buffer.getD (st.buffer.length - 1) "").length)).take
          st.prompt_line) = _
      exact congrArg Except.ok (take_insertAtLineIdx (by omega) (by omega))
    · rw [if_neg c2]
      by_cases c3 : Console.selectionAbovePrompt st = true
      · rw [if_pos c3]
        rfl
      · rw [if_neg c3]
        by_cases c4 : (ev.key = Key.backspace ∨ ev.key = Key.delete) ∧
            (st.cursor.1 < st.prompt_line ∨
              (st.cursor.1 = st.prompt_line ∧
                st.cursor.2 ≤ st.prompt_str.length))
        · rw [if_pos c4]
          rfl
        · rw [if_neg c4, if_neg c5, if_neg c6, if_neg c7]
          by_cases c8 : st.cursor.1 < st.prompt_line
          · rw [if_pos c8]
            rfl
          · rw [if_neg c8]
            exact congrArg Except.ok (htail c3 c4 c8)
  · unfold Console.keyPressEventE
    by_cases c3 : Console.selectionAbovePrompt st = true
    · rw [if_pos c3]
      rfl
    · rw [if_neg c3]
      by_cases c4 : (ev.key = Key.backspace ∨ ev.key = Key.delete) ∧
          (st.cursor.1 < st.prompt_line ∨
            (st.cursor.1 = st.prompt_line ∧
              st.cursor.2 ≤ st.prompt_str.length))
      · rw [if_pos c4]
        rfl
      · rw [if_neg c4, if_neg c5, if_neg c6, if_neg c7]
        by_cases c8 : st.cursor.1 < st.prompt_line
        · rw [if_pos c8]
          rfl
        · rw [if_neg c8]
          exact congrArg Except.ok (htail c3 c4 c8)

/-- Witness for C2: a Backspace aimed into the transcript is rejected by
both variants, leaving the lines above the prompt unchanged. -/
theorem editGuard_above_prompt_witness :
    ((bsEv.key = Key.charKey ∨ bsEv.key = Key.backspace ∨
        bsEv.key = Key.delete) ∧
     c10st.prompt_line < c10st.buffer.length) ∧
    ((Console.keyPressEvent stubEngine bsEv c10st).map
        (fun s => s.buffer.take c10st.prompt_line)
      = .ok (c10st.buffer.take c10st.prompt_line) ∧
     (Console.keyPressEventE stubEngine bsEv c10st).map
        (fun s => s.buffer.take c10st.prompt_line)
      = .ok (c10st.buffer.take c10st.prompt_line)) :=
  ⟨⟨by decide, by decide⟩,
   editGuard_above_prompt stubEngine bsEv c10st (by decide) (by decide)⟩

theorem str_ne_empty_append_right (a b : String) (hb : ¬ b = "") :
    ¬ (a ++ b) = "" := by
  intro h
  apply hb
  obtain ⟨da⟩ := a
  obtain ⟨db⟩ := b
  have : da ++ db = [] := congrArg String.data h
  have := (List.append_eq_nil.mp this).2
  rw [this]

theorem ensure_proj (X : ConsoleState) :
    ∃ q, Console.ensure_active_figure X = { X with plt := q } := by
  unfold Console.ensure_active_figure
  by_cases h : X.plt.figs = []
  · rw [if_pos h]
    exact ⟨_, rfl⟩
  · rw [if_neg h]
    exact ⟨X.plt, rfl⟩

theorem render_ok_of_no_axes {st : ConsoleState}
    (hax : pltGcfHasAxes st.plt = false) :
    ∃ s2, Console.render_inline_plot st = .ok s2 ∧
      s2.sys_stdout = st.sys_stdout ∧ s2.sys_stderr = st.sys_stderr ∧
      s2.render_log = st.render_log ∧ s2.prompt_str = st.prompt_str := by
  unfold Console.render_inline_plot Console.writeStdout
  dsimp only
  cases hso : st.sys_stdout
  · dsimp only
    by_cases hf : st.plt.figs = []
    · rw [if_pos hf]
      exact ⟨_, rfl, rfl, rfl, rfl, rfl⟩
    · rw [if_neg hf]
      rw [hax]
      simp only [Bool.not_false, if_true]
      exact ⟨_, rfl, rfl, rfl, rfl, rfl⟩
  · dsimp only
    by_cases hf : st.plt.figs = []
    · rw [if_pos hf]
      exact ⟨_, rfl, rfl, rfl, rfl, rfl⟩
    · rw [if_neg hf]
      rw [hax]
      simp only [Bool.not_false, if_true]
      exact ⟨_, rfl, rfl, rfl, rfl, rfl⟩

theorem run_tail_eq (B : ConsoleState)
    (hax2 : pltGcfHasAxes B.plt = false) :
    (match Console.render_inline_plot B with
     | .error e => Except.error e
     | .ok s => Except.ok (Console.reset_prompt (Console.appendText s "\n")))
    = .ok (Console.reset_prompt
        (Console.appendText (renderOkState B) "\n")) := by
  obtain ⟨s2, hr, -, -, -, -⟩ := render_ok_of_no_axes hax2
  unfold renderOkState
  rw [hr]

theorem renderOkState_sys_stdout {B : ConsoleState}
    (hax2 : pltGcfHasAxes B.plt = false) :
    (renderOkState B).sys_stdout = B.sys_stdout := by
  obtain ⟨s2, hr, h1, -, -, -⟩ := render_ok_of_no_axes hax2
  unfold renderOkState
  rw [hr]
  exact h1

theorem renderOkState_sys_stderr {B : ConsoleState}
    (hax2 : pltGcfHasAxes B.plt = false) :
    (renderOkState B).sys_stderr = B.sys_stderr := by
  obtain ⟨s2, hr, -, h2, -, -⟩ := render_ok_of_no_axes hax2
  unfold renderOkState
  rw [hr]
  exact h2

theorem renderOkState_render_log {B : ConsoleState}
    (hax2 : pltGcfHasAxes B.plt = false) :
    (renderOkState B).render_log = B.render_log := by
  obtain ⟨s2, hr, -, -, h3, -⟩ := render_ok_of_no_axes hax2
  unfold renderOkState
  rw [hr]
  exact h3

theorem renderOkState_prompt_str {B : ConsoleState}
    (hax2 : pltGcfHasAxes B.plt = false) :
    (renderOkState B).prompt_str = B.prompt_str := by
  obtain ⟨s2, hr, -, -, -, h4⟩ := render_ok_of_no_axes hax2
  unfold renderOkState
  rw [hr]
  exact h4

theorem appendText_sys_stdout (X : ConsoleState) (s : String) :
    (Console.appendText X s).sys_stdout = X.sys_stdout := rfl

theorem appendText_sys_stderr (X : ConsoleState) (s : String) :
    (Console.appendText X s).sys_stderr = X.sys_stderr := rfl

theorem appendText_render_log (X : ConsoleState) (s : String) :
    (Console.appendText X s).render_log = X.render_log ++ [(s, 0)] := rfl

theorem appendText_prompt_str (X : ConsoleState) (s : String) :
    (Console.appendText X s).prompt_str = X.prompt_str := rfl

theorem appendTextStyled_sys_stdout (X : ConsoleState) (s : String) (c : Nat) :
    (Console.appendTextStyled X s c).sys_stdout = X.sys_stdout := rfl

theorem appendTextStyled_sys_stderr (X : ConsoleState) (s : String) (c : Nat) :
    (Console.appendTextStyled X s c).sys_stderr = X.sys_stderr := rfl

theorem appendTextStyled_render_log (X : ConsoleState) (s : String) (c : Nat) :
    (Console.appendTextStyled X s c).render_log = X.render_log ++ [(s, c)] := rfl

theorem appendTextStyled_prompt_str (X : ConsoleState) (s : String) (c : Nat) :
    (Console.appendTextStyled X s c).prompt_str = X.prompt_str := rfl

theorem reset_prompt_sys_stdout (X : ConsoleState) :
    (Console.reset_prompt X).sys_stdout = X.sys_stdout := rfl

theorem reset_prompt_sys_stderr (X : ConsoleState) :
    (Console.reset_prompt X).sys_stderr = X.sys_stderr := rfl

theorem reset_prompt_render_log (X : ConsoleState) :
    (Console.reset_prompt X).render_log = X.render_log ++ [(X.prompt_str, 0)] := rfl

/-- C3 (amended): for every exception raised by evaluated code during
submit's execute call, the exception is caught at the submission boundary
(`run_current_input` returns normally), the prior stdout/stderr stream
objects are restored on the exceptional exit path, and the error text
`Error: <msg>` is rendered into the transcript — but through the captured
stdout channel in the default style 0, not as an error-styled line. -/
theorem evalError_caught_not_styled (eng : Engine) (st : ConsoleState)
    (out err msg : String) (p2 : ListPlot.PltState)
    (hcode : ¬ (Console.currentCode st = ""))
    (hcomplete : eng.check_complete (Console.currentCode st) = "complete")
    (hrun : ∀ p, eng.run_cell (Console.currentCode st) p
      = { stdout := out, stderr := err, outcome := some msg, plt := p2 })
    (hax : pltGcfHasAxes p2 = false) :
    runOk (Console.run_current_input eng st) = true ∧
    (Console.run_current_input eng st).map (fun s => s.sys_stdout)
      = .ok st.sys_stdout ∧
    (Console.run_current_input eng st).map (fun s => s.sys_stderr)
      = .ok st.sys_stderr ∧
    (Console.run_current_input eng st).map
        (fun s => (s.render_log.drop st.render_log.length).head?)
      = .ok (some ("\n" ++ remove_ansi_codes
          ("" ++ out ++ ("Error: " ++ msg ++ "\n")), 0)) := by
  obtain ⟨q, hq⟩ := ensure_proj { st with
    history := st.history ++ [Console.currentCode st],
    history_index := (st.history ++ [Console.currentCode st]).length }
  have hout : ("" ++ out ++ ("Error: " ++ msg ++ "\n")) ≠ "" :=
    str_ne_empty_append_right _ _
      (str_ne_empty_append_right _ _ (by decide))
  unfold Console.run_current_input
  dsimp only
  rw [if_neg hcode]
  rw [if_neg (by rw [hcomplete]; exact fun h => h rfl)]
  rw [hq]
  dsimp only
  rw [hrun q]
  dsimp only
  unfold Console.writeStdout Console.writeStderr
  dsimp only
  rw [if_pos hout]
  by_cases herr : ("" ++ err) = ""
  · rw [if_neg (fun h => h herr)]
    rw [run_tail_eq]
    · refine ⟨rfl, ?_, ?_, ?_⟩
      · refine congrArg Except.ok ?_
        dsimp only
        rw [reset_prompt_sys_stdout, appendText_sys_stdout,
          renderOkState_sys_stdout]
        · rfl
        · exact hax
      · refine congrArg Except.ok ?_
        dsimp only
        rw [reset_prompt_sys_stderr, appendText_sys_stderr,
          renderOkState_sys_stderr]
        · rfl
        · exact hax
      · refine congrArg Except.ok ?_
        dsimp only
        rw [reset_prompt_render_log, appendText_render_log,
          renderOkState_render_log]
        · simp only [appendText_render_log, List.append_assoc]
          rw [List.drop_left]
          rfl
        · exact hax
    · exact hax
  · rw [if_pos herr]
    rw [run_tail_eq]
    · refine ⟨rfl, ?_, ?_, ?_⟩
      · refine congrArg Except.ok ?_
        dsimp only
        rw [reset_prompt_sys_stdout, appendText_sys_stdout,
          renderOkState_sys_stdout]
        · rfl
        · exact hax
      · refine congrArg Except.ok ?_
        dsimp only
        rw [reset_prompt_sys_stderr, appendText_sys_stderr,
          renderOkState_sys_stderr]
        · rfl
        · exact hax
      · refine congrArg Except.ok ?_
        dsimp only
        rw [reset_prompt_render_log, appendText_render_log,
          renderOkState_render_log]
        · simp only [appendText_render_log, appendTextStyled_render_log,
            List.append_assoc]
          rw [List.drop_left]
          rfl
        · exact hax
    · exact hax

/-- C3 counterexample to the spec's error-styled rendering: submitting `x`
to an engine that raises `boom` produces, among the transcript lines added
by the submission, no line carrying the error style (`STYLE_STDERR` = 128);
the `Error: boom` text arrives in the default style 0 instead, because the
caught exception is printed to the captured stdout inside the capture
scope, not written through the error-styled stderr path. -/
theorem evalError_not_error_styled_cex :
    (Console.run_current_input raisingEngine c3typed).map
        (fun s => ((s.render_log.drop c3typed.render_log.length).filter
          (fun e => e.2 == Console.STYLE_STDERR)).length) = .ok 0 ∧
    (Console.run_current_input raisingEngine c3typed).map
        (fun s => (s.render_log.drop c3typed.render_log.length).head?)
      = .ok (some ("\nError: boom\n", 0)) := by
  decide

/-- Witness for C3: the amended theorem applied to the concrete raising
engine on the console with `x` composed. -/
theorem evalError_caught_not_styled_witness :
    (¬ (Console.currentCode c3typed = "")) ∧
    raisingEngine.check_complete (Console.currentCode c3typed) = "complete" ∧
    pltGcfHasAxes { figs := [], cur := none } = false ∧
    runOk (Console.run_current_input raisingEngine c3typed) = true ∧
    (Console.run_current_input raisingEngine c3typed).map
        (fun s => (s.render_log.drop c3typed.render_log.length).head?)
      = .ok (some ("\n" ++ remove_ansi_codes
          ("" ++ "" ++ ("Error: " ++ "boom" ++ "\n")), 0)) := by
  have h := evalError_caught_not_styled raisingEngine c3typed "" "" "boom"
    { figs := [], cur := none } (by decide) (by decide)
    (fun p => rfl) (by decide)
  exact ⟨by decide, by decide, by decide, h.1, h.2.2.2⟩
